import Mathlib

/-!
Verification of the control/simulation core of the `minha-panela` batch
sugar-concentration kettle dashboard (`src/app/page.tsx`).

The simulation loop (lines 158-285 of the source), the command handlers
(`handleStart`, `handlePause`, `handleReset`, the slider `onValueChange`
handlers and the auto-mode toggle) and the alarm/history buffers are embedded
shallowly.  JavaScript numbers are modelled as exact rationals (`ℚ`); alarm
ids and wall-clock timestamps are display-only and are not part of the model
(an alarm is its message plus severity, a history sample carries the sampled
values).  The `history` list never feeds back into the physics, so the tick
is split into `stepCore` (every field except `history`, transcribed directly
from the loop body) and `step` (the running guard plus the history append);
`core` projects the history-free part of a state.
-/

attribute [local semireducible] Rat.mul Rat.add Rat.sub Rat.inv Rat.ofScientific

namespace Panela

/-- `AMBIENT = 25` from the configuration block of the source. -/
def AMBIENT : ℚ := 25

/-- `MAX_BRIX = 85`. -/
def MAX_BRIX : ℚ := 85

/-- `HEAT_K = 0.37`. -/
def HEAT_K : ℚ := 37/100

/-- `COOL_K = 0.05`. -/
def COOL_K : ℚ := 5/100

/-- `BRIX_K = 0.08`. -/
def BRIX_K : ℚ := 8/100

/-- The four phases of `PHASE_CONFIG` (Clarificação, Concentração, Ponto,
Finalizado). -/
inductive ProcessPhase where
  | Clarificacao
  | Concentracao
  | Ponto
  | Finalizado
  deriving DecidableEq

/-- The `setpoint` column of `PHASE_CONFIG`. -/
def phaseSetpoint : ProcessPhase → ℚ
  | .Clarificacao => 95
  | .Concentracao => 115
  | .Ponto => 118
  | .Finalizado => 60

/-- Alarm severities. -/
inductive Severity where
  | warning
  | error
  | info
  deriving DecidableEq

/-- The distinct alarm messages appended by the source, as constructors; the
temperature-exceeded message interpolates the offending temperature. -/
inductive AlarmMsg where
  | protectionActivated
  | protectionDeactivated
  | phaseConcentracao
  | phasePonto
  | phaseFinalizado
  | tempExceeding (t : ℚ)
  | highTorque
  | overloadCritical
  | systemStarted
  | systemPaused
  | protectionWarn
  deriving DecidableEq

/-- An alarm entry: message and severity (ids/timestamps are display-only). -/
structure Alarm where
  message : AlarmMsg
  severity : Severity
  deriving DecidableEq

/-- A history sample: the committed temperature, torque, brix and setpoint of
the tick (the source stores them rounded for display together with a clock
string; the rounding and the clock are presentation). -/
structure HistoryPoint where
  temp : ℚ
  torque : ℚ
  brix : ℚ
  setpoint : ℚ
  deriving DecidableEq

/-- The complete process state: the `useState` variables of the component
that participate in the control/simulation core. -/
structure PanState where
  temperature : ℚ
  setpoint : ℚ
  rpm : ℚ
  torque : ℚ
  phase : ProcessPhase
  brix : ℚ
  time : ℕ
  history : List HistoryPoint
  auto : Bool
  running : Bool
  alarms : List Alarm
  efficiency : ℚ
  protectionActive : Bool
  originalRpm : ℚ
  deriving DecidableEq

/-- Everything of `PanState` except `time` and `history` (neither feeds back
into the physics of a tick). -/
structure CoreState where
  temperature : ℚ
  setpoint : ℚ
  rpm : ℚ
  torque : ℚ
  phase : ProcessPhase
  brix : ℚ
  auto : Bool
  alarms : List Alarm
  efficiency : ℚ
  protectionActive : Bool
  originalRpm : ℚ
  deriving DecidableEq

/-- Projection of the history-free part of a state. -/
def core (s : PanState) : CoreState :=
  { temperature := s.temperature
    setpoint := s.setpoint
    rpm := s.rpm
    torque := s.torque
    phase := s.phase
    brix := s.brix
    auto := s.auto
    alarms := s.alarms
    efficiency := s.efficiency
    protectionActive := s.protectionActive
    originalRpm := s.originalRpm }

/-- `addAlarm`: `setAlarms(prev => [...prev.slice(-4), {...}])` — keep the
last four entries and append the new one. -/
def addAlarm (msg : AlarmMsg) (sev : Severity) (alarms : List Alarm) : List Alarm :=
  alarms.drop (alarms.length - 4) ++ [⟨msg, sev⟩]

/-- The history update `[...h.slice(-99), newPoint]` — keep the last 99
samples and append the new one (capacity 100). -/
def pushHistory (p : HistoryPoint) (h : List HistoryPoint) : List HistoryPoint :=
  h.drop (h.length - 99) ++ [p]

/-- Temperature physics of a tick: heating toward the setpoint (attenuated by
0.8 while motor protection is active), ambient cooling, and the clamp to
`[AMBIENT, setpoint + 10]`. -/
def tempStep (active : Bool) (temperature setpoint : ℚ) : ℚ :=
  let heatFactor := if active then HEAT_K * (8/10) else HEAT_K
  let toward := temperature + heatFactor * (setpoint - temperature)
  let cooled := toward - COOL_K * (temperature - AMBIENT)
  min (setpoint + 10) (max AMBIENT cooled)

/-- `evapFactor = clamp((nextTemp - 80) / 50, 0, 2)`. -/
def evapFactorOf (nextTemp : ℚ) : ℚ :=
  max 0 (min 2 ((nextTemp - 80) / 50))

/-- `phaseFactor`: 1.8 during Concentração, 2.2 during Ponto, 1.0 otherwise. -/
def phaseFactorOf : ProcessPhase → ℚ
  | .Concentracao => 18/10
  | .Ponto => 22/10
  | _ => 1

/-- Brix physics of a tick: `min(MAX_BRIX, brix + BRIX_K·evapFactor·phaseFactor)`. -/
def brixStep (phase : ProcessPhase) (brix nextTemp : ℚ) : ℚ :=
  min MAX_BRIX (brix + BRIX_K * evapFactorOf nextTemp * phaseFactorOf phase)

/-- `visc = clamp((nextBrix - 20) / 60, 0, 1)`. -/
def viscOf (brix : ℚ) : ℚ :=
  max 0 (min 1 ((brix - 20) / 60))

/-- The torque formula of the source, evaluated at a given viscosity and rpm:
`clamp(5 + 50·visc + 20·rpmFactor + 40·visc·rpmFactor [+ 5·visc in Ponto], 0, 100)`.
It is used twice per tick when protection is active. -/
def torqueFormula (phase : ProcessPhase) (visc rpm : ℚ) : ℚ :=
  let rpmFactor := rpm / 100
  let raw := 5 + 50 * visc + 20 * rpmFactor + 40 * visc * rpmFactor
  let raw2 := if phase = .Ponto then raw + 5 * visc else raw
  min 100 (max 0 raw2)

/-- Result of the motor-protection block of a tick. -/
structure ProtResult where
  rpm : ℚ
  active : Bool
  originalRpm : ℚ
  torque : ℚ
  alarms : List Alarm
  deriving DecidableEq

/-- The motor-protection block of the simulation loop.  On activation
(`nextTorque ≥ 90` with protection inactive) the rpm is cut to
`max(10, rpm·0.7)`, the current rpm is saved, and a warning is appended;
the committed torque stays the first-pass value.  While active, the rpm ramps
down by 2 while `nextTorque ≥ 85`, ramps up by 5 toward the saved rpm once
`nextTorque < 75` (deactivating on arrival), and the torque is recomputed
with the adjusted rpm. -/
def motorProtection (phase : ProcessPhase) (visc nextTorque rpm : ℚ) (active : Bool)
    (originalRpm : ℚ) (alarms : List Alarm) : ProtResult :=
  if 90 ≤ nextTorque ∧ active = false then
    { rpm := max 10 (rpm * (7/10))
      active := true
      originalRpm := rpm
      torque := nextTorque
      alarms := addAlarm .protectionActivated .warning alarms }
  else if active then
    let ramp : ℚ × Bool × List Alarm :=
      if 85 ≤ nextTorque then
        (max 10 (rpm - 2), active, alarms)
      else if nextTorque < 75 then
        if rpm < originalRpm then
          let nr := min originalRpm (rpm + 5)
          if originalRpm ≤ nr then
            (nr, false, addAlarm .protectionDeactivated .info alarms)
          else
            (nr, active, alarms)
        else (rpm, active, alarms)
      else (rpm, active, alarms)
    { rpm := ramp.1
      active := ramp.2.1
      originalRpm := originalRpm
      torque := torqueFormula phase visc ramp.1
      alarms := ramp.2.2 }
  else
    { rpm := rpm
      active := active
      originalRpm := originalRpm
      torque := nextTorque
      alarms := alarms }

/-- The automatic phase-transition chain of a tick (evaluated only when
`auto`): Clarificação→Concentração when `nextTemp ≥ 85` or `nextBrix ≥ 26`,
Concentração→Ponto when `nextBrix ≥ 55` or `nextTorque ≥ 70`,
Ponto→Finalizado when `nextBrix ≥ 75`; each transition installs the target
phase setpoint and appends an info alarm. -/
def phaseTransition (auto : Bool) (phase : ProcessPhase) (setpoint nextTemp nextBrix nextTorque : ℚ)
    (alarms : List Alarm) : ProcessPhase × ℚ × List Alarm :=
  if auto then
    if phase = .Clarificacao ∧ (85 ≤ nextTemp ∨ 26 ≤ nextBrix) then
      (.Concentracao, phaseSetpoint .Concentracao, addAlarm .phaseConcentracao .info alarms)
    else if phase = .Concentracao ∧ (55 ≤ nextBrix ∨ 70 ≤ nextTorque) then
      (.Ponto, phaseSetpoint .Ponto, addAlarm .phasePonto .info alarms)
    else if phase = .Ponto ∧ 75 ≤ nextBrix then
      (.Finalizado, phaseSetpoint .Finalizado, addAlarm .phaseFinalizado .info alarms)
    else (phase, setpoint, alarms)
  else (phase, setpoint, alarms)

/-- The alarm checks at the end of a tick: temperature exceeding
`setpoint + 5` (edge-triggered on the previous temperature), torque entering
`≥ 85` (edge-triggered, suppressed when protection was already active), and
torque `≥ 95` (checked every tick). -/
def alarmChecks (setpoint temperature torque nextTemp nextTorque : ℚ) (active : Bool)
    (alarms : List Alarm) : List Alarm :=
  let a1 := if setpoint + 5 < nextTemp ∧ temperature ≤ setpoint + 5 then
      addAlarm (.tempExceeding nextTemp) .warning alarms else alarms
  let a2 := if 85 ≤ nextTorque ∧ torque < 85 ∧ active = false then
      addAlarm .highTorque .warning a1 else a1
  if 95 ≤ nextTorque then addAlarm .overloadCritical .error a2 else a2

/-- Efficiency of a tick:
`clamp(((100 − 0.5·|nextTemp − setpoint|) + (100 − 2·max(0, nextTorque − 80))) / 2, 0, 100)`. -/
def efficiencyStep (setpoint nextTemp nextTorque : ℚ) : ℚ :=
  let tempEfficiency := 100 - |nextTemp - setpoint| * (5/10)
  let torqueEfficiency := 100 - max 0 (nextTorque - 80) * 2
  min 100 (max 0 ((tempEfficiency + torqueEfficiency) / 2))

/-- One iteration of the simulation loop body (source lines 164-264) on the
history-free state: temperature, brix and first-pass torque physics, the
motor-protection block (which may adjust the rpm and recompute the torque),
efficiency, the automatic phase transitions, and the alarm checks. -/
def stepCore (c : CoreState) : CoreState :=
  let nextTemp := tempStep c.protectionActive c.temperature c.setpoint
  let nextBrix := brixStep c.phase c.brix nextTemp
  let visc := viscOf nextBrix
  let nextTorque := torqueFormula c.phase visc c.rpm
  let prot := motorProtection c.phase visc nextTorque c.rpm c.protectionActive
    c.originalRpm c.alarms
  let eff := efficiencyStep c.setpoint nextTemp prot.torque
  let tr := phaseTransition c.auto c.phase c.setpoint nextTemp nextBrix prot.torque prot.alarms
  let finalAlarms := alarmChecks c.setpoint c.temperature c.torque nextTemp prot.torque
    c.protectionActive tr.2.2
  { c with
    temperature := nextTemp
    brix := nextBrix
    torque := prot.torque
    phase := tr.1
    setpoint := tr.2.1
    rpm := prot.rpm
    protectionActive := prot.active
    originalRpm := prot.originalRpm
    efficiency := eff
    alarms := finalAlarms }

/-- One physics tick of the interval callback: a no-op when not running
(`if (!running) return`), otherwise the loop body plus the history append. -/
def step (s : PanState) : PanState :=
  if s.running then
    let c := stepCore (core s)
    { s with
      temperature := c.temperature
      setpoint := c.setpoint
      rpm := c.rpm
      torque := c.torque
      phase := c.phase
      brix := c.brix
      auto := c.auto
      alarms := c.alarms
      efficiency := c.efficiency
      protectionActive := c.protectionActive
      originalRpm := c.originalRpm
      history := pushHistory ⟨c.temperature, c.torque, c.brix, c.setpoint⟩ s.history }
  else s

/-- One tick of the 1-second clock: `setTime(t => t + 1)`, armed only while
running. -/
def tickClock (s : PanState) : PanState :=
  if s.running then { s with time := s.time + 1 } else s

/-- The initial state: the `useState` defaults of the component. -/
def initState : PanState :=
  { temperature := AMBIENT
    setpoint := 95
    rpm := 40
    torque := 10
    phase := .Clarificacao
    brix := 20
    time := 0
    history := []
    auto := false
    running := false
    alarms := []
    efficiency := 100
    protectionActive := false
    originalRpm := 40 }

/-- `handleStart`: start running in automatic mode from Clarificação. -/
def handleStart (s : PanState) : PanState :=
  { s with
    running := true
    auto := true
    phase := .Clarificacao
    setpoint := phaseSetpoint .Clarificacao
    alarms := addAlarm .systemStarted .info s.alarms }

/-- `handlePause`: stop running, keeping the physical state. -/
def handlePause (s : PanState) : PanState :=
  { s with running := false, alarms := addAlarm .systemPaused .warning s.alarms }

/-- `handleReset`: reinitialize every state variable to its default. -/
def handleReset (s : PanState) : PanState :=
  { s with
    running := false
    auto := false
    phase := .Clarificacao
    setpoint := phaseSetpoint .Clarificacao
    temperature := AMBIENT
    brix := 20
    rpm := 40
    torque := 10
    time := 0
    history := []
    alarms := []
    efficiency := 100
    protectionActive := false
    originalRpm := 40 }

/-- The rpm slider handler: guarded by `!protectionActive`; when accepted it
sets both the rpm and the saved original rpm. -/
def setRpmCmd (v : ℚ) (s : PanState) : PanState :=
  if s.protectionActive then s else { s with rpm := v, originalRpm := v }

/-- The setpoint slider handler: guarded by `!auto`. -/
def setSetpointCmd (v : ℚ) (s : PanState) : PanState :=
  if s.auto then s else { s with setpoint := v }

/-- The automatic-mode toggle. -/
def setAutoCmd (b : Bool) (s : PanState) : PanState :=
  { s with auto := b }

/-- Iterated physics ticks. -/
def stepN : ℕ → PanState → PanState
  | 0, s => s
  | n+1, s => stepN n (step s)

/-- Iterated loop bodies on the history-free state. -/
def stepCoreN : ℕ → CoreState → CoreState
  | 0, c => c
  | n+1, c => stepCoreN n (stepCore c)

/-- The states reachable from the initial state by ticks and commands.  The
two sliders clamp their values to their configured ranges (rpm 10-100,
setpoint 60-130). -/
inductive Reachable : PanState → Prop where
  | init : Reachable initState
  | tick {s} : Reachable s → Reachable (step s)
  | clock {s} : Reachable s → Reachable (tickClock s)
  | start {s} : Reachable s → Reachable (handleStart s)
  | pause {s} : Reachable s → Reachable (handlePause s)
  | reset {s} : Reachable s → Reachable (handleReset s)
  | auto {s} (b : Bool) : Reachable s → Reachable (setAutoCmd b s)
  | setpoint {s v} : Reachable s → 60 ≤ v → v ≤ 130 → Reachable (setSetpointCmd v s)
  | rpm {s v} : Reachable s → 10 ≤ v → v ≤ 100 → Reachable (setRpmCmd v s)

/-- The successor of a phase in the recipe order (Finalizado is terminal). -/
def phaseSucc : ProcessPhase → ProcessPhase
  | .Clarificacao => .Concentracao
  | .Concentracao => .Ponto
  | .Ponto => .Finalizado
  | .Finalizado => .Finalizado

/-- Number of critical-overload error entries in an alarm list. -/
def countOverload (l : List Alarm) : ℕ :=
  (l.filter (fun a => decide (a.message = AlarmMsg.overloadCritical))).length

/-- The motor-protection result of a tick out of the history-free state `c`. -/
def protOf (c : CoreState) : ProtResult :=
  motorProtection c.phase
    (viscOf (brixStep c.phase c.brix (tempStep c.protectionActive c.temperature c.setpoint)))
    (torqueFormula c.phase
      (viscOf (brixStep c.phase c.brix (tempStep c.protectionActive c.temperature c.setpoint)))
      c.rpm)
    c.rpm c.protectionActive c.originalRpm c.alarms

/-- The phase-transition result of a tick out of the history-free state `c`. -/
def transOf (c : CoreState) : ProcessPhase × ℚ × List Alarm :=
  phaseTransition c.auto c.phase c.setpoint
    (tempStep c.protectionActive c.temperature c.setpoint)
    (brixStep c.phase c.brix (tempStep c.protectionActive c.temperature c.setpoint))
    (protOf c).torque (protOf c).alarms

/-- The inductive invariant on the history-free state: slider/config bounds
on rpm, saved rpm and setpoint, the brix range, the protection relation
between the current and the saved rpm, and the alarm-log capacity. -/
def CoreInv (c : CoreState) : Prop :=
  10 ≤ c.rpm ∧ c.rpm ≤ 100 ∧ 10 ≤ c.originalRpm ∧ c.originalRpm ≤ 100 ∧
  60 ≤ c.setpoint ∧ c.setpoint ≤ 130 ∧ 20 ≤ c.brix ∧ c.brix ≤ 85 ∧
  (c.protectionActive = true → c.rpm < c.originalRpm ∧ 50 ≤ c.originalRpm) ∧
  c.alarms.length ≤ 5

/-- The inductive invariant of reachable states: the history-free invariant
plus the history-buffer capacity. -/
def Inv (s : PanState) : Prop :=
  CoreInv (core s) ∧ s.history.length ≤ 100

/-- Trajectory: the fresh dashboard after pressing start. -/
def trajS1 : PanState := handleStart initState

/-- Trajectory: seven ticks reach Concentração, then auto mode is switched
off and the manual setpoint slider is set to 130. -/
def trajS2 : PanState := setSetpointCmd 130 (setAutoCmd false (stepN 7 trajS1))

/-- Trajectory: 326 manual ticks bring brix past 55. -/
def trajSB : PanState := stepN 326 trajS2

/-- Trajectory: auto mode is switched back on. -/
def trajS3 : PanState := setAutoCmd true trajSB

/-- Trajectory: one automatic tick advances the phase to Ponto; auto mode is
then switched off again and the setpoint slider set back to 130. -/
def trajS4 : PanState := setSetpointCmd 130 (setAutoCmd false (step trajS3))

/-- Trajectory: 226 manual ticks in Ponto drive brix to the cap 85. -/
def trajSD : PanState := stepN 226 trajS4

/-- Trajectory: the rpm slider is set to 100 and one tick executes; the
committed torque is 100 and motor protection activates. -/
def trajT1 : PanState := step (setRpmCmd 100 trajSD)

/-- Trajectory: a second tick with torque still at 100, then auto mode on. -/
def trajQ2 : PanState := setAutoCmd true (step trajT1)

/-- Trajectory branch: from `trajS4`, 44 manual ticks bring brix near 61,
then the rpm slider is set to 100. -/
def trajP0 : PanState := setRpmCmd 100 (stepN 44 trajS4)

/-- Trajectory branch: the tick after `trajP0` activates motor protection. -/
def trajU1 : PanState := step trajP0

/-- A small running state with motor protection active, used by witnesses. -/
def witActive : PanState :=
  { initState with
    running := true
    protectionActive := true
    rpm := 40
    originalRpm := 60
    phase := ProcessPhase.Ponto
    brix := 50
    temperature := 100
    torque := 80
    setpoint := 118 }

/-- A small running state whose next tick commits a torque of 100, used by
witnesses. -/
def witOverload : PanState :=
  { initState with
    running := true
    phase := ProcessPhase.Ponto
    brix := 85
    rpm := 100
    setpoint := 118
    temperature := 110
    torque := 84 }

/-- Checkpoint state `ckA1` of the evaluation trajectory. -/
def ckA1 : CoreState where
    temperature := (mkRat 13328918192189 156250000000)
    setpoint := (115 : Rat)
    rpm := (40 : Rat)
    torque := (mkRat 12716355683884129 976562500000000)
    phase := ProcessPhase.Concentracao
    brix := (mkRat 1955038016716739 97656250000000)
    auto := true
    alarms := [Alarm.mk AlarmMsg.systemStarted Severity.info, Alarm.mk AlarmMsg.phaseConcentracao Severity.info]
    efficiency := (mkRat 60985168192189 625000000000)
    protectionActive := false
    originalRpm := (40 : Rat)

/-- Checkpoint state `ckB1` of the evaluation trajectory. -/
def ckB1 : CoreState where
    temperature := (mkRat 54715182996279503173026194729203901578099185977859319561 465661287307739257812500000000000000000000000000000000)
    setpoint := (130 : Rat)
    rpm := (40 : Rat)
    torque := (mkRat 230658045628330619343698328125503838027108439859884090168589 14551915228366851806640625000000000000000000000000000000000)
    phase := ProcessPhase.Concentracao
    brix := (mkRat 32875025698512025963951268465954894366100767259989462742599 1455191522836685180664062500000000000000000000000000000000)
    auto := false
    alarms := [Alarm.mk AlarmMsg.systemStarted Severity.info, Alarm.mk AlarmMsg.phaseConcentracao Severity.info]
    efficiency := (mkRat 180443730569369102782401194729203901578099185977859319561 1862645149230957031250000000000000000000000000000000000)
    protectionActive := false
    originalRpm := (40 : Rat)

/-- Checkpoint state `ckB2` of the evaluation trajectory. -/
def ckB2 : CoreState where
    temperature := (mkRat 163064006741753567822591243718233673978166314516693968980466000093786976014585003078226274999481189 1387778780781445675529539585113525390625000000000000000000000000000000000000000000000000000000000)
    setpoint := (130 : Rat)
    rpm := (40 : Rat)
    torque := (mkRat 816217754363581516270296797425395989768227094460896267383670576844320837707720307436305350689356643161 43368086899420177360298112034797668457031250000000000000000000000000000000000000000000000000000000000)
    phase := ProcessPhase.Concentracao
    brix := (mkRat 109684594223487555682998164158052273261955304041899660671242779713120076155247300676027759153577876651 4336808689942017736029811203479766845703125000000000000000000000000000000000000000000000000000000000)
    auto := false
    alarms := [Alarm.mk AlarmMsg.systemStarted Severity.info, Alarm.mk AlarmMsg.phaseConcentracao Severity.info]
    efficiency := (mkRat 537764277552743900215566931698885529446916314516693968980466000093786976014585003078226274999481189 5551115123125782702118158340454101562500000000000000000000000000000000000000000000000000000000000)
    protectionActive := false
    originalRpm := (40 : Rat)

/-- Checkpoint state `ckB3` of the evaluation trajectory. -/
def ckB3 : CoreState where
    temperature := (mkRat 485968609874903758746263038907205330327240319918880784391375155211335991728871630978712394109472452391791078711916785447561432054325989780561 4135903062765138374357043460349814267829060554504394531250000000000000000000000000000000000000000000000000000000000000000000000000000000000)
    setpoint := (130 : Rat)
    rpm := (40 : Rat)
    torque := (mkRat 2816381968423278269213044856061832032640040575611509814553003330342893065130781407021910319833890694723007991096099376618097672789144289682857589 129246970711410574198657608135931695869658142328262329101562500000000000000000000000000000000000000000000000000000000000000000000000000000000000)
    phase := ProcessPhase.Concentracao
    brix := (mkRat 361782245893270312454633029935019754133360350596897343315187802758444824102798309729264574530353699520273453736009034238008879344467662698441599 12924697071141057419865760813593169586965814232826232910156250000000000000000000000000000000000000000000000000000000000000000000000000000000000)
    auto := false
    alarms := [Alarm.mk AlarmMsg.systemStarted Severity.info, Alarm.mk AlarmMsg.phaseConcentracao Severity.info]
    efficiency := (mkRat 1602662436821491119822664773201655182641086669635067307828875155211335991728871630978712394109472452391791078711916785447561432054325989780561 16543612251060553497428173841399257071316242218017578125000000000000000000000000000000000000000000000000000000000000000000000000000000000000)
    protectionActive := false
    originalRpm := (40 : Rat)

/-- Checkpoint state `ckB4` of the evaluation trajectory. -/
def ckB4 : CoreState where
    temperature := (mkRat 1448299318179201361498094539033575271698458331901900576388309650296890867063233940534226395303503265797435844467611721618773796306765671788125844022079318425353330969619051590844770189 12325951644078309459558258832543534838643850548578484449535608291625976562500000000000000000000000000000000000000000000000000000000000000000000000000000000000000000000000000000000000)
    setpoint := (130 : Rat)
    rpm := (40 : Rat)
    torque := (mkRat 9537474725950263960808969408228278925293828312669603855684203207635112831334336880826249334242078196375979128120642226058690496704917893156966223895838584609562408894582081089651650704161 385185988877447170611195588516985463707620329643077639047987759113311767578125000000000000000000000000000000000000000000000000000000000000000000000000000000000000000000000000000000000000)
    phase := ProcessPhase.Concentracao
    brix := (mkRat 1182195329622480772391793609534649827151128298132482055192372094514083521776132898256931757658370745125089011647331111459880954245901626650633293081439871328142037172234734644513786427651 38518598887744717061119558851698546370762032964307763904798775911331176757812500000000000000000000000000000000000000000000000000000000000000000000000000000000000000000000000000000000000)
    auto := false
    alarms := [Alarm.mk AlarmMsg.systemStarted Severity.info, Alarm.mk AlarmMsg.phaseConcentracao Severity.info]
    efficiency := (mkRat 4776306262080344915578824423820329678132297980018091377762923889035904538938233940534226395303503265797435844467611721618773796306765671788125844022079318425353330969619051590844770189 49303806576313237838233035330174139354575402194313937798142433166503906250000000000000000000000000000000000000000000000000000000000000000000000000000000000000000000000000000000000000)
    protectionActive := false
    originalRpm := (40 : Rat)

/-- Checkpoint state `ckB5` of the evaluation trajectory. -/
def ckB5 : CoreState where
    temperature := (mkRat 4316268319425586943322704472609761173067342499892926070569962190630381626085634854841418064097043775714139411689568378510846854194658854654573824018487257617073865958320505656941441353570367183510569618231894834650825481241561 36734198463196484624023016788195177431833298649127735047148490821200539357960224151611328125000000000000000000000000000000000000000000000000000000000000000000000000000000000000000000000000000000000000000000000000000000000000)
    setpoint := (130 : Rat)
    rpm := (40 : Rat)
    torque := (mkRat 31833282449592000417483509143186378182988539301351396484009238708878907931399560540033999659389013421484509797573297580252159937219387353727938978630615384922922901468269610869472434374947594086482912125050296663319880002064546589 1147943701974890144500719274631099294744790582785241720223390338162516854936257004737854003906250000000000000000000000000000000000000000000000000000000000000000000000000000000000000000000000000000000000000000000000000000000000000)
    phase := ProcessPhase.Concentracao
    brix := (mkRat 3833161433396910156180907510442388348699241322401688360547250159303778147802352143879516881322296674680409981597572507295650903383580668520721725330055944083902081951660873715406584943177054007862082920459117878483625454733140599 114794370197489014450071927463109929474479058278524172022339033816251685493625700473785400390625000000000000000000000000000000000000000000000000000000000000000000000000000000000000000000000000000000000000000000000000000000000000)
    auto := false
    alarms := [Alarm.mk AlarmMsg.systemStarted Severity.info, Alarm.mk AlarmMsg.phaseConcentracao Severity.info]
    efficiency := (mkRat 14234501904488637791808919005422459079662333135157414533300054712354527252734895375776476657847043775714139411689568378510846854194658854654573824018487257617073865958320505656941441353570367183510569618231894834650825481241561 146936793852785938496092067152780709727333194596510940188593963284802157431840896606445312500000000000000000000000000000000000000000000000000000000000000000000000000000000000000000000000000000000000000000000000000000000000000)
    protectionActive := false
    originalRpm := (40 : Rat)

/-- Checkpoint state `ckB6` of the evaluation trajectory. -/
def ckB6 : CoreState where
    temperature := (mkRat 12863481996731719205745173909106651974845634946745174646490950733781114198746940437298593285045497267264187476805150322417645331746349765166999690411791595535600729883726292144704790518221659090385143683201572346088292575710919502922239785077903852392032325406079059189 109476442525376333665916373694524697756270464209102794668520959678889928334832859491143608465790748596191406250000000000000000000000000000000000000000000000000000000000000000000000000000000000000000000000000000000000000000000000000000000000000000000000000000000000000)
    setpoint := (130 : Rat)
    rpm := (40 : Rat)
    torque := (mkRat 105031356944016886194499270286680189988749947100522309768254416098006893401533020659810839493650024519978693048773048332706616202502677610676454470896559349010347157357324848345359645067723124607214488213596585037827643429292092862243345217954349430465832152083768905765161 3421138828918010427059886677953896804883452006534462333391279989965310260463526859098237764555960893630981445312500000000000000000000000000000000000000000000000000000000000000000000000000000000000000000000000000000000000000000000000000000000000000000000000000000000000000)
    phase := ProcessPhase.Concentracao
    brix := (mkRat 12347418764025361821639840944387751021154637741757497342615994182517698704154978399244998124968515687514320550598686212064237836591152510061495860990596304455486105214302258940487240460702102237019498928508780457984331220844735714749395019814031766405984741098524445978651 342113882891801042705988667795389680488345200653446233339127998996531026046352685909823776455596089363098144531250000000000000000000000000000000000000000000000000000000000000000000000000000000000000000000000000000000000000000000000000000000000000000000000000000000000000)
    auto := false
    alarms := [Alarm.mk AlarmMsg.systemStarted Severity.info, Alarm.mk AlarmMsg.phaseConcentracao Severity.info]
    efficiency := (mkRat 42422121478583329295542594806628320369038660283202929206991609847081394849151812499907367570808999388235867164305150322417645331746349765166999690411791595535600729883726292144704790518221659090385143683201572346088292575710919502922239785077903852392032325406079059189 437905770101505334663665494778098791025081856836411178674083838715559713339331437964574433863162994384765625000000000000000000000000000000000000000000000000000000000000000000000000000000000000000000000000000000000000000000000000000000000000000000000000000000000000000)
    protectionActive := false
    originalRpm := (40 : Rat)

/-- Checkpoint state `ckB7` of the evaluation trajectory. -/
def ckB7 : CoreState where
    temperature := (mkRat 38336163749491331594422977891882216889744298208380020311697027827329771330744336530312878653262727249865726274502964751095279206553352234114130338119206992976550359341338756698482528588649048722051816209633817128831156002571315825289134045155108337622381332159412455832924097216104749886444412055357737333702561 326265223399926226335514705462827377785058212903448327387931822773486162229874311361144806342693414080713409930467605590820312500000000000000000000000000000000000000000000000000000000000000000000000000000000000000000000000000000000000000000000000000000000000000000000000000000000000000000000000000000000000000)
    setpoint := (130 : Rat)
    rpm := (40 : Rat)
    torque := (mkRat 343299327093074849733314316630969236784217894062200456080239629180513049889941973759953185427388335501915382229805900990904035472971864469564682466631416986817348758015762687119936031448666122910428058841054348143958369100791321536456899816969508760127911580731920325681127376994883964908381813951860377910235235589 10195788231247694572984834545713355555783069153232760230872869461671442569683572230035775198209169190022294060327112674713134765625000000000000000000000000000000000000000000000000000000000000000000000000000000000000000000000000000000000000000000000000000000000000000000000000000000000000000000000000000000000000000)
    phase := ProcessPhase.Concentracao
    brix := (mkRat 39551038288573100080925257049308130616933228767390481650735950394141457547008556711843196564660987110192366252068174096665658942145169497233152951511946998801577159819614789738176002858969647537311641712823122558541669918253756503314263619724500796375264689157447302334647943363171269537125619450169125264566839599 1019578823124769457298483454571335555578306915323276023087286946167144256968357223003577519820916919002229406032711267471313476562500000000000000000000000000000000000000000000000000000000000000000000000000000000000000000000000000000000000000000000000000000000000000000000000000000000000000000000000000000000000000)
    auto := false
    alarms := [Alarm.mk AlarmMsg.systemStarted Severity.info, Alarm.mk AlarmMsg.phaseConcentracao Severity.info]
    efficiency := (mkRat 126427774067471412705011948366845608891710015692311068706438619976171035132810400597821976365789949051658346955729218260616763581553352234114130338119206992976550359341338756698482528588649048722051816209633817128831156002571315825289134045155108337622381332159412455832924097216104749886444412055357737333702561 1305060893599704905342058821851309511140232851613793309551727291093944648919497245444579225370773656322853639721870422363281250000000000000000000000000000000000000000000000000000000000000000000000000000000000000000000000000000000000000000000000000000000000000000000000000000000000000000000000000000000000000000)
    protectionActive := false
    originalRpm := (40 : Rat)

/-- Checkpoint state `ckB8` of the evaluation trajectory. -/
def ckB8 : CoreState where
    temperature := (mkRat 114250671116981898529598050987369468479586660909963400470871017286023560549267644744810968894243805200984583259797632756578561820237413453283198473733767356666385068417708260924769307640716663953602818512723663472527533293139258643521115675535099654485096217245224176773970203318144740973406172228216429034807356958159453004318386460416716491209702348189 972346137165803391741260008403144412592226901362682364547049471060890442818028662684991378613392752649526029617987887831986881792545318603515625000000000000000000000000000000000000000000000000000000000000000000000000000000000000000000000000000000000000000000000000000000000000000000000000000000000000000000000000000000000000000000000000000000000000000)
    setpoint := (130 : Rat)
    rpm := (40 : Rat)
    torque := (mkRat 1113357598006369181320307478999310442164223205243315096213423960037561370729071556132582248730831531359264696396217176075661184973175382537542109060489964769952895641360607599184999396083976307513771728954760493436684450091209389925450041756930415661522537560013760066118187216489219354698350041882513839630527051341577343353552472022483028902558902121826161 30385816786431355991914375262598262893507090667583823892095295970652826338063395708905980581668523520297688425562121494749590056017041206359863281250000000000000000000000000000000000000000000000000000000000000000000000000000000000000000000000000000000000000000000000000000000000000000000000000000000000000000000000000000000000000000000000000000000000000000)
    phase := ProcessPhase.Concentracao
    brix := (mkRat 126075449916750125931594259669335891655071547386506319203843783979403346161058374319339643087804385731085808384206933593491590497938977581343716235612724069995717785578237054471363581462179664319433793541341863039698586371928126356859094705175492332865685232728523642374380656044474486790759094716592167239138822849234303941232042911134820809323536556529651 3038581678643135599191437526259826289350709066758382389209529597065282633806339570890598058166852352029768842556212149474959005601704120635986328125000000000000000000000000000000000000000000000000000000000000000000000000000000000000000000000000000000000000000000000000000000000000000000000000000000000000000000000000000000000000000000000000000000000000000)
    auto := false
    alarms := [Alarm.mk AlarmMsg.systemStarted Severity.info, Alarm.mk AlarmMsg.phaseConcentracao Severity.info]
    efficiency := (mkRat 376784128151748814299738253256218459879487924277887638898574374472463980110135383669758641119859848416356611256654362471215019904224649476232417223733767356666385068417708260924769307640716663953602818512723663472527533293139258643521115675535099654485096217245224176773970203318144740973406172228216429034807356958159453004318386460416716491209702348189 3889384548663213566965040033612577650368907605450729458188197884243561771272114650739965514453571010598104118471951551327947527170181274414062500000000000000000000000000000000000000000000000000000000000000000000000000000000000000000000000000000000000000000000000000000000000000000000000000000000000000000000000000000000000000000000000000000000000000000)
    protectionActive := false
    originalRpm := (40 : Rat)

/-- Checkpoint state `ckB9` of the evaluation trajectory. -/
def ckB9 : CoreState where
    temperature := (mkRat 340493533363884385018342885337380970953663173050031595377299528523719147433108215747525704709182947652825459315537985652137506562203778852917649176419543524114927200092669189105677508596665872020344545778387008294111784736556896348974267947793774577299359030263348045043231767841841998436348205265742929913076120623356667794346069702251024424690752409866454660712392501978315204665718322547163561 2897817305224547957602918173084093369818409983404524220666436764779360421949710436716650064627506591825264780575000905489882474519447441707598045468330383300781250000000000000000000000000000000000000000000000000000000000000000000000000000000000000000000000000000000000000000000000000000000000000000000000000000000000000000000000000000000000000000000000000000000000000000000000000000000000000000)
    setpoint := (130 : Rat)
    rpm := (40 : Rat)
    torque := (mkRat 3587017875498742784906307379988513240092811776775176236225360287594502044815894591719931063036795637233014172244636573133035990897618490986428479029988784441543631751754964726575123803467570108639504324241440519008933574572445007170575946510565908247074930486862567988699089599739336743928059252508669145153312307509063952702972973042135109946510135706251114698528320053658107478447843937903194924589 90556790788267123675091192908877917806825311981391381895826148899355013185928451147395314519609580994539524392968778296558827328732732553362438920885324478149414062500000000000000000000000000000000000000000000000000000000000000000000000000000000000000000000000000000000000000000000000000000000000000000000000000000000000000000000000000000000000000000000000000000000000000000000000000000000000000000)
    phase := ProcessPhase.Concentracao
    brix := (mkRat 400184453872104263452920737833492227304930871327972606662526875244427014862659150186044444883025624198533626525577779800187766986928462178790039028905154976808032574023178611506829436678870009876318574931040047182630324961131364288234176955505991658824993680623869817154462690885394249448005386591697195013937482500823995700270270276557737267864557791477374063502574550332555225313440357991199538599 9055679078826712367509119290887791780682531198139138189582614889935501318592845114739531451960958099453952439296877829655882732873273255336243892088532447814941406250000000000000000000000000000000000000000000000000000000000000000000000000000000000000000000000000000000000000000000000000000000000000000000000000000000000000000000000000000000000000000000000000000000000000000000000000000000000000000)
    auto := false
    alarms := [Alarm.mk AlarmMsg.systemStarted Severity.info, Alarm.mk AlarmMsg.phaseConcentracao Severity.info]
    efficiency := (mkRat 1122904205774512333571130792070086180804633868569253134957237455014146461359530033661021222158609727445646950070788230134405774682454588113969121452868747015325864700092669189105677508596665872020344545778387008294111784736556896348974267947793774577299359030263348045043231767841841998436348205265742929913076120623356667794346069702251024424690752409866454660712392501978315204665718322547163561 11591269220898191830411672692336373479273639933618096882665747059117441687798841746866600258510026367301059122300003621959529898077789766830392181873321533203125000000000000000000000000000000000000000000000000000000000000000000000000000000000000000000000000000000000000000000000000000000000000000000000000000000000000000000000000000000000000000000000000000000000000000000000000000000000000000000)
    protectionActive := false
    originalRpm := (40 : Rat)

/-- Checkpoint state `ckB10` of the evaluation trajectory. -/
def ckB10 : CoreState where
    temperature := (mkRat 1014749805223597243482896343879046949606130042821263062740283157390624402531964724102795061959367509497078084195634873815810311877635140359905785488767474089877163360318404212974024234317208465588577791416420076876706043111002421799808255411647348811969983013394409018577066719084309941187490153235751219404815446442758193197250524763608594702150072905723860547969248355218849851267605369181492906147542804425452962290256747581490714637189 8636168555094444625386351862800399571116000364436281385023703470168591803162427057971507503472288226560547293946149663596995098946831946693653003777058074774686247110366821289062500000000000000000000000000000000000000000000000000000000000000000000000000000000000000000000000000000000000000000000000000000000000000000000000000000000000000000000000000000000000000000000000000000000000000000000000000000000000000000000000000000000000000000)
    setpoint := (130 : Rat)
    rpm := (40 : Rat)
    torque := (mkRat 11491690707623649067346239754342677164015421132325853825749854867719897242152986177657565785078704777303348171196706711165911208119863111609145905158123798647507305107117534788018030157525758071204533007659212283775570330963252954619654785653007641026706389465168792938460249592833759340897653131907626583289941659679182915587175892543032367838577482889888895065084775617722222956048128808813330184116685933737834502155460613223501912298887161 269880267346701394543323495712512486597375011388633793281990733442768493848825845561609609483509007080017102935817176987406096842088498334176656368033064836708945222198963165283203125000000000000000000000000000000000000000000000000000000000000000000000000000000000000000000000000000000000000000000000000000000000000000000000000000000000000000000000000000000000000000000000000000000000000000000000000000000000000000000000000000000000000000000)
    phase := ProcessPhase.Concentracao
    brix := (mkRat 1265510283067632874385104655977753594853799657711232542298888315336801244253856253428368388220935076456682008874460118550233279972605417874248710224583762016171619282446200297778805298411432551927684818878110207615960939178477541329059525968455240093336944496833526630769113599348523576445241193809784234844540150879925719598834172049366578894416134808171717733189525056156565723277102618983030016737880539430712227468678237565772901118080651 26988026734670139454332349571251248659737501138863379328199073344276849384882584556160960948350900708001710293581717698740609684208849833417665636803306483670894522219896316528320312500000000000000000000000000000000000000000000000000000000000000000000000000000000000000000000000000000000000000000000000000000000000000000000000000000000000000000000000000000000000000000000000000000000000000000000000000000000000000000000000000000000000000000)
    auto := false
    alarms := [Alarm.mk AlarmMsg.systemStarted Severity.info, Alarm.mk AlarmMsg.phaseConcentracao Severity.info]
    efficiency := (mkRat 3346515315099097292337211346835154833807450141219059036696683094336144189385820029755102087896885330668425853561095282986998988593279765967192096508573154279042450080117445961020899234317208465588577791416420076876706043111002421799808255411647348811969983013394409018577066719084309941187490153235751219404815446442758193197250524763608594702150072905723860547969248355218849851267605369181492906147542804425452962290256747581490714637189 34544674220377778501545407451201598284464001457745125540094813880674367212649708231886030013889152906242189175784598654387980395787327786774612015108232299098744988441467285156250000000000000000000000000000000000000000000000000000000000000000000000000000000000000000000000000000000000000000000000000000000000000000000000000000000000000000000000000000000000000000000000000000000000000000000000000000000000000000000000000000000000000000000)
    protectionActive := false
    originalRpm := (40 : Rat)

/-- Checkpoint state `ckB11` of the evaluation trajectory. -/
def ckB11 : CoreState where
    temperature := (mkRat 3024190083812466989406634401914617269057423003975340910972014539666094811682807305751509632856583058450612666243051105751023923392501948732422570181321872304643934726669786694666168480502011821042839561109442772502959682619395309753334877233534903477042524666634538659944717877758437496567641049247491418578462798194450166035827295914619223460461009961855715898092822567864792506840646394633671974115668475408997603068123098721919257622539836089814596494573320096121436842121624561 25737787947340144590694760867358444843041897906173114135932038635517930397875389629517517994261646945955000203687398623219117817124223550241151463321024402304548761577507320907898247241973876953125000000000000000000000000000000000000000000000000000000000000000000000000000000000000000000000000000000000000000000000000000000000000000000000000000000000000000000000000000000000000000000000000000000000000000000000000000000000000000000000000000000000000000000000000000000000000000000)
    setpoint := (130 : Rat)
    rpm := (40 : Rat)
    torque := (mkRat 36636695568690753606378765513327238706379011023491907691351673223281679177125452890106206248910636558400236134349894234155330789803038114023119371259739886690432803697985601207672115240973063818014750014087430466673523940533319812652294074641072442481781471984861535214633272141569310759397823930838592958917201586018273027300530468258529914735476973352357725697932166971793341938707643057190796560110186467004798470551972313503303324350747053837435347307813333238287397848869943613589 804305873354379518459211277104951401345059309567909816747876207359935324933605925922422437320676467061093756365231206975597431785131985945035983228782012572017148799297103778371820226311683654785156250000000000000000000000000000000000000000000000000000000000000000000000000000000000000000000000000000000000000000000000000000000000000000000000000000000000000000000000000000000000000000000000000000000000000000000000000000000000000000000000000000000000000000000000000000000000000000000)
    phase := ProcessPhase.Concentracao
    brix := (mkRat 3988677129898197206591969727933800119862231346327554185643869008138281554684355111218909834981520432904552721966997736085064334169929635229858474574434363621689740262878139564819863388888928791916468751280675496970320358230301801150208552240097494771071042907714685019512115649233573705399802175530781178083381962365297547936411860750775446794134270304759793245266560633799394721700694823380981505464562406091345315504724755773027574940977004894312304300710303021662490713533631237599 80430587335437951845921127710495140134505930956790981674787620735993532493360592592242243732067646706109375636523120697559743178513198594503598322878201257201714879929710377837182022631168365478515625000000000000000000000000000000000000000000000000000000000000000000000000000000000000000000000000000000000000000000000000000000000000000000000000000000000000000000000000000000000000000000000000000000000000000000000000000000000000000000000000000000000000000000000000000000000000000000)
    auto := false
    alarms := [Alarm.mk AlarmMsg.systemStarted Severity.info, Alarm.mk AlarmMsg.phaseConcentracao Severity.info]
    efficiency := (mkRat 9973392829594306028894219836101397376678735438642081727673664971255936019109162505721239491307227733858462721238648734020185734016042307297533465277998460926872100352596763339798695235834958598386589561109442772502959682619395309753334877233534903477042524666634538659944717877758437496567641049247491418578462798194450166035827295914619223460461009961855715898092822567864792506840646394633671974115668475408997603068123098721919257622539836089814596494573320096121436842121624561 102951151789360578362779043469433779372167591624692456543728154542071721591501558518070071977046587783820000814749594492876471268496894200964605853284097609218195046310029283631592988967895507812500000000000000000000000000000000000000000000000000000000000000000000000000000000000000000000000000000000000000000000000000000000000000000000000000000000000000000000000000000000000000000000000000000000000000000000000000000000000000000000000000000000000000000000000000000000000000000000)
    protectionActive := false
    originalRpm := (40 : Rat)

/-- Checkpoint state `ckB12` of the evaluation trajectory. -/
def ckB12 : CoreState where
    temperature := (mkRat 9012788783945044843574268823607615438274809729979458185946984707335701027226923914582818617949561773052633161278764964203139629967055596017988905239355682786945293314154183414137992772908281441256033122168288691735730066718816181248470800378612221330280159241955900962274782813178359727019104813810194187333432395808823199886849696636172375142758345604796113160388401165341062110916130568832508329721309002612580979251561694602866578789933120745684330858170559429994962251401249376448520530265502372555393568217738115926189 76704585395276977392121436796660556921487742382803899454867954956048519605026810257189029438083311754330993305705185601768248728287886232856367419126702553941454772882185342633420965796631207922473549842834472656250000000000000000000000000000000000000000000000000000000000000000000000000000000000000000000000000000000000000000000000000000000000000000000000000000000000000000000000000000000000000000000000000000000000000000000000000000000000000000000000000000000000000000000000000000000000000000000000000000000000000000000)
    setpoint := (130 : Rat)
    rpm := (40 : Rat)
    torque := (mkRat 116305005587796153951295086760309172774475327649440168878712849495231194117273178789232722122420627237634095448959573831445636057328130003426686984733159990776496710929389256125475213500806612509978026179821558665214703554405370416363601920576809729169560269657921171825586147549684044248748959527597663451817415028172993742529754977188454719569768609036601445672215471440681229079979037577946755646922386754928537143265179351180722383442576286206625727909818682089356403017915572049534109407505130604209212622173660660436948161 2397018293602405543503794899895642403796491949462621857964623592376516237657087820537157169940103492322843540803287050055257772758996444776761481847709454810670461652568291957294405181144725247577298432588577270507812500000000000000000000000000000000000000000000000000000000000000000000000000000000000000000000000000000000000000000000000000000000000000000000000000000000000000000000000000000000000000000000000000000000000000000000000000000000000000000000000000000000000000000000000000000000000000000000000000000000000000000000)
    phase := ProcessPhase.Concentracao
    brix := (mkRat 12534379111837982167529930987215450400785795926782160509126769256965440023289724470369739695625596242594517028744468843812996001105372546037958211032958644006593715072954898521920441830100830885288519279374432190889546914036851856033054720052437248106323660877992833802326013413607640386249905411599787586528855911652090340229977725198950429051797146276054676879292315585516475370907185234358795967902035159538957922115016304652792943949325116927875066173619880189941491183446870186321282673409557327655382965652150969130631651 239701829360240554350379489989564240379649194946262185796462359237651623765708782053715716994010349232284354080328705005525777275899644477676148184770945481067046165256829195729440518114472524757729843258857727050781250000000000000000000000000000000000000000000000000000000000000000000000000000000000000000000000000000000000000000000000000000000000000000000000000000000000000000000000000000000000000000000000000000000000000000000000000000000000000000000000000000000000000000000000000000000000000000000000000000000000000000000)
    auto := false
    alarms := [Alarm.mk AlarmMsg.systemStarted Severity.info, Alarm.mk AlarmMsg.phaseConcentracao Severity.info]
    efficiency := (mkRat 29723026840669828739447056758705965807076500173336511038761332545468801320584162684023856566232055946722001353819165076680566786604784878889208108403565372351138081992344225925161653537998707580323891579733596308923230066718816181248470800378612221330280159241955900962274782813178359727019104813810194187333432395808823199886849696636172375142758345604796113160388401165341062110916130568832508329721309002612580979251561694602866578789933120745684330858170559429994962251401249376448520530265502372555393568217738115926189 306818341581107909568485747186642227685950969531215597819471819824194078420107241028756117752333247017323973222820742407072994913151544931425469676506810215765819091528741370533683863186524831689894199371337890625000000000000000000000000000000000000000000000000000000000000000000000000000000000000000000000000000000000000000000000000000000000000000000000000000000000000000000000000000000000000000000000000000000000000000000000000000000000000000000000000000000000000000000000000000000000000000000000000000000000000000000000)
    protectionActive := false
    originalRpm := (40 : Rat)

/-- Checkpoint state `ckB13` of the evaluation trajectory. -/
def ckB13 : CoreState where
    temperature := (mkRat 26860203695133462082070913385175512547119884878335768538555457315849366943808251888499665309374831558180916999838081365536043684286421793657830896921384804442730890041359921900380955227586481551238545754121317336718537914612426715679508597397781869707542855942325504057274130143466388192793797201747552564841954680059368746505987464240030329437968098423261147843439115433153850086064271411475710793126830462751517816716961658904842498814081570641517076809710951319448991527641779188460849668833479241966600318705008409269327504308243144443369721076823378557057085561 228597478256454996443156709661068191890381998964559732243025168645526527181347639135089604372034405929836610870674805646444108272456783750225208458682008248393102803475217052201691167940590405233125537165506102610379457473754882812500000000000000000000000000000000000000000000000000000000000000000000000000000000000000000000000000000000000000000000000000000000000000000000000000000000000000000000000000000000000000000000000000000000000000000000000000000000000000000000000000000000000000000000000000000000000000000000000000000000000000000000000000000000000000000000)
    setpoint := (130 : Rat)
    rpm := (40 : Rat)
    torque := (mkRat 367832630633697803066674940624830814342948522386980521073543374432889960227937805647262732160782371847540432375514749642716583110384730807370884282614432576081987524239652894847678886423420655094840433915180711798965039085354390970268238465237903250098554498123313498945312665350386095214213762296846798885063749910169026301370538570960327282103980647115562725930546966647210252209662356037031106395853946178163828207057409670346866532662131990985152593927586659941041045015435259616663280980989480052205423356428472421761321939768144472966813596704211432388699481302589 7143671195514218638848647176908380996574437467642491632594536520172703974417113722971550136626075185307394089708587676451378383514274492194537764333812757762284462608600532881302848998143450163535173036422065706574358046054840087890625000000000000000000000000000000000000000000000000000000000000000000000000000000000000000000000000000000000000000000000000000000000000000000000000000000000000000000000000000000000000000000000000000000000000000000000000000000000000000000000000000000000000000000000000000000000000000000000000000000000000000000000000000000000000000000000)
    phase := ProcessPhase.Concentracao
    brix := (mkRat 39284151944847797346937524110636931210192587235978449615172200283131299636153802650364243944583368046846089016626548975525362596546654657920156741965340672358413426156096153707218593400610155142423362840270845741648569227258904705571260315021627568190777681647573954449573878668216917746746705663349708989551249991833547845579139870087302480191270967919596611448231542422473659291787486912457373308713995107105802564277946333667896957514739271907741144902507878176458276819585023601514843725544498186564129396038952038341938358160740406633346690609473766580790861936599 714367119551421863884864717690838099657443746764249163259453652017270397441711372297155013662607518530739408970858767645137838351427449219453776433381275776228446260860053288130284899814345016353517303642206570657435804605484008789062500000000000000000000000000000000000000000000000000000000000000000000000000000000000000000000000000000000000000000000000000000000000000000000000000000000000000000000000000000000000000000000000000000000000000000000000000000000000000000000000000000000000000000000000000000000000000000000000000000000000000000000000000000000000000000000)
    auto := false
    alarms := [Alarm.mk AlarmMsg.systemStarted Severity.info, Alarm.mk AlarmMsg.phaseConcentracao Severity.info]
    efficiency := (mkRat 88581522824376311121723224993663924357523024598766896244172252850141529282772114454973858489824121159236801934920278890075952917849753406218637180765527031508868646979668525994837570571545890964182440788807965041520991432526245075054508597397781869707542855942325504057274130143466388192793797201747552564841954680059368746505987464240030329437968098423261147843439115433153850086064271411475710793126830462751517816716961658904842498814081570641517076809710951319448991527641779188460849668833479241966600318705008409269327504308243144443369721076823378557057085561 914389913025819985772626838644272767561527995858238928972100674582106108725390556540358417488137623719346443482699222585776433089827135000900833834728032993572411213900868208806764671762361620932502148662024410441517829895019531250000000000000000000000000000000000000000000000000000000000000000000000000000000000000000000000000000000000000000000000000000000000000000000000000000000000000000000000000000000000000000000000000000000000000000000000000000000000000000000000000000000000000000000000000000000000000000000000000000000000000000000000000000000000000000000000)
    protectionActive := false
    originalRpm := (40 : Rat)

/-- Checkpoint state `ckB14` of the evaluation trajectory. -/
def ckB14 : CoreState where
    temperature := (mkRat 1343010184756673104103545669258775627355994243916788426927772865792468347190414604332323892759865011819118430318694442533146104006593345919757797882518014681749176978774535811418720658493414789898655089825404510955948910840250548094549499324535674221518742822327439617660949774160525257591020118850679024380416685721721693648673636462960879553701074854274573287459734347561461652495863870932795613000678083419794016684791888108240432465608365548603995227481617588264020754301611596465364640396170898017031409242445243868810497624939051188857721911227877978154655481269 11429873912822749822157835483053409594519099948227986612151258432276326359067381956754480218601720296491830543533740282322205413622839187511260422934100412419655140173760852610084558397029520261656276858275305130518972873687744140625000000000000000000000000000000000000000000000000000000000000000000000000000000000000000000000000000000000000000000000000000000000000000000000000000000000000000000000000000000000000000000000000000000000000000000000000000000000000000000000000000000000000000000000000000000000000000000000000000000000000000000000000000000000000000000000)
    setpoint := (130 : Rat)
    rpm := (40 : Rat)
    torque := (mkRat 18434064938586244612048507995472376500267078277906822453974780268574323873004927663094541190091019603798899045472501008910618752939996395249511053571452836991228876022705137835042527963857407018469670836934210219899180631281297419181022323695024194252858080445576091469414067295161196761212199106608557167666848747394901762739745618557849491181015438766351319051985862032769097314080208325073902085479764439166751018004664880440059129447201827738569425223900013138290190305447622528883235148448694921513957277336425700231078336253276189716037594304422131539272284957775081 357183559775710931942432358845419049828721873382124581629726826008635198720855686148577506831303759265369704485429383822568919175713724609726888216690637888114223130430026644065142449907172508176758651821103285328717902302742004394531250000000000000000000000000000000000000000000000000000000000000000000000000000000000000000000000000000000000000000000000000000000000000000000000000000000000000000000000000000000000000000000000000000000000000000000000000000000000000000000000000000000000000000000000000000000000000000000000000000000000000000000000000000000000000000000000)
    phase := ProcessPhase.Concentracao
    brix := (mkRat 1968065179687967545411854475007377086247779558031449426240211063877458241953875348948339886506613948835202398712851405755794456865583628794277549774697143453114262199688670693784437273911087235641863518484012707987058341091452314430163961245002199477532552767779644679037642481378290614655654464237141560696986249763172887521795056232531771925546858069668301731998714730251736119461837120461263825952705858106068274364060443676369011767927438885324493202172728467117290027767965684443930468040790447410359752485129609111916212386661471792367054027674739230842934996161371 35718355977571093194243235884541904982872187338212458162972682600863519872085568614857750683130375926536970448542938382256891917571372460972688821669063788811422313043002664406514244990717250817675865182110328532871790230274200439453125000000000000000000000000000000000000000000000000000000000000000000000000000000000000000000000000000000000000000000000000000000000000000000000000000000000000000000000000000000000000000000000000000000000000000000000000000000000000000000000000000000000000000000000000000000000000000000000000000000000000000000000000000000000000000000000)
    auto := false
    alarms := [Alarm.mk AlarmMsg.systemStarted Severity.info, Alarm.mk AlarmMsg.phaseConcentracao Severity.info]
    efficiency := (mkRat 4429076141218815556086161249683196217876151229938344812208612642507076464138607732656033551782329491871912677072804318760141565684759926547798112074725126035056064825689966016141551425691385260545849841559736896196071586735941466063299499324535674221518742822327439617660949774160525257591020118850679024380416685721721693648673636462960879553701074854274573287459734347561461652495863870932795613000678083419794016684791888108240432465608365548603995227481617588264020754301611596465364640396170898017031409242445243868810497624939051188857721911227877978154655481269 45719495651290999288631341932213638378076399792911946448605033729105305436269527827017920874406881185967322174134961129288821654491356750045041691736401649678620560695043410440338233588118081046625107433101220522075891494750976562500000000000000000000000000000000000000000000000000000000000000000000000000000000000000000000000000000000000000000000000000000000000000000000000000000000000000000000000000000000000000000000000000000000000000000000000000000000000000000000000000000000000000000000000000000000000000000000000000000000000000000000000000000000000000000000000)
    protectionActive := false
    originalRpm := (40 : Rat)

/-- Checkpoint state `ckC` of the evaluation trajectory. -/
def ckC : CoreState where
    temperature := (mkRat 67150509237833655205177283462938781367799712195839421346388643289623417359520788503929072829435830174348026345411642980091278874305562726857011232182915193416225190763216442346526546940979370152697860752731046227278083980191774561734122980411534552424043541847495748912167543450655232470139583446669691707032083885929929115811535457425865507057331170773962625336332296079282387922380052257051072777019664419174026483858964755138972541502642600909515861596966910059656601874746736297495574571488956042493910868030912072195504431123232484476873935425608461366485008956801 571493695641137491107891774152670479725954997411399330607562921613816317953369097837724010930086014824591527176687014116110270681141959375563021146705020620982757008688042630504227919851476013082813842913765256525948643684387207031250000000000000000000000000000000000000000000000000000000000000000000000000000000000000000000000000000000000000000000000000000000000000000000000000000000000000000000000000000000000000000000000000000000000000000000000000000000000000000000000000000000000000000000000000000000000000000000000000000000000000000000000000000000000000000000000)
    setpoint := (118 : Rat)
    rpm := (40 : Rat)
    torque := (mkRat 923824917274379953538163447985160614169336521823230942713619590775207486730648257961741263548098846139794641986581441948760380911761426154179937663076846690391466659512006021910839041214803618544984744425353863739774048620123509960975294359811951633332884332921706652613007951559674706075153774091648157862338613674452151119452622938177635244249447724224188252507589998950303822108326041427143160478913168735835779522135281532761714753968853004418513331493100381010415518857981053337613819305012152723904761042756345306701271751345009501765090234828241814638896263775477349 17859177988785546597121617942270952491436093669106229081486341300431759936042784307428875341565187963268485224271469191128445958785686230486344410834531894405711156521501332203257122495358625408837932591055164266435895115137100219726562500000000000000000000000000000000000000000000000000000000000000000000000000000000000000000000000000000000000000000000000000000000000000000000000000000000000000000000000000000000000000000000000000000000000000000000000000000000000000000000000000000000000000000000000000000000000000000000000000000000000000000000000000000000000000000000000)
    phase := ProcessPhase.Ponto
    brix := (mkRat 98596138106677261173841637224145380599296487713198818586090605679917575105003028793509194692925957982655546273184060424446944958257509293505185214598875794549351551655047091976377558515730113384047830704077303830699736786941582903501305169073813784848444030265609695692091631959970427825013979462877105260212601243132013738132056630743421385840858884020380750227962727177300347464393276493376650952628469885075979956557752866614701341269895727674410302863009125546401410805271004848873983573182922974900432822068758664245570159213182681978644566802567437694445114888679759 1785917798878554659712161794227095249143609366910622908148634130043175993604278430742887534156518796326848522427146919112844595878568623048634441083453189440571115652150133220325712249535862540883793259105516426643589511513710021972656250000000000000000000000000000000000000000000000000000000000000000000000000000000000000000000000000000000000000000000000000000000000000000000000000000000000000000000000000000000000000000000000000000000000000000000000000000000000000000000000000000000000000000000000000000000000000000000000000000000000000000000000000000000000000000000000)
    auto := true
    alarms := [Alarm.mk AlarmMsg.systemStarted Severity.info, Alarm.mk AlarmMsg.phaseConcentracao Severity.info, Alarm.mk AlarmMsg.phasePonto Severity.info]
    efficiency := (mkRat 221453807060940777804308062484159810893807561496917240610430632125353823206930444920114555780559054176987738683117136791441051958213891758259026941793270761081569583108987952582668085300877893685057598339447665489284217774976320460171622980411534552424043541847495748912167543450655232470139583446669691707032083885929929115811535457425865507057331170773962625336332296079282387922380052257051072777019664419174026483858964755138972541502642600909515861596966910059656601874746736297495574571488956042493910868030912072195504431123232484476873935425608461366485008956801 2285974782564549964431567096610681918903819989645597322430251686455265271813476391350896043720344059298366108706748056464441082724567837502252084586820082483931028034752170522016911679405904052331255371655061026103794574737548828125000000000000000000000000000000000000000000000000000000000000000000000000000000000000000000000000000000000000000000000000000000000000000000000000000000000000000000000000000000000000000000000000000000000000000000000000000000000000000000000000000000000000000000000000000000000000000000000000000000000000000000000000000000000000000000000000)
    protectionActive := false
    originalRpm := (40 : Rat)

/-- Checkpoint state `ckQ1` of the evaluation trajectory. -/
def ckQ1 : CoreState where
    temperature := (mkRat 200124112480383083835772524663623515867590046512602035243477354316781214951040950405104518414430111111208775627070133101161058516085740235480887508543014734917582370845479042781413099390883951067090872526533763482548324786995259267173991794445887433189197502415019486108765920117684655389145183793235748032232227580247184923431046233774556361011750738217065410830261515934565566334909579113130013185245230772926456567487566248222634657801437163275139114549637315634923120568413081772121415733595055334340309118043012989126858142431944574468482247989629826312264720268898968053262253689186574416029380802126973949 1703183936003260287964021486498923539298638693724272640370020036738563531498220854514014753490942760779236338069102210152477832678383467720636788447812261047907939579153187961888992547546255627521317729096905161517705451501569768879562616348266601562500000000000000000000000000000000000000000000000000000000000000000000000000000000000000000000000000000000000000000000000000000000000000000000000000000000000000000000000000000000000000000000000000000000000000000000000000000000000000000000000000000000000000000000000000000000000000000000000000000000000000000000000000000000000000000000000000000000000000000000000)
    setpoint := (130 : Rat)
    rpm := (40 : Rat)
    torque := (mkRat 6234426254599348622458708487944195151301710116348143821732731796021889976511358418240474513873345596103990330068356505980922359227597179257209004555347674554633907237796559481719970154960261835308207942827591050491995932767880310757061399030784850993345064974958767140016125183368809189587003194601830014759680842269346169755472841521498468452157495913935499464371714719251392596944018258987496736826687078065955191005064250328477977783125275746123414806659129833756766070138310651294356999849330863517100758835645074942895958652069692428203708208113933046153071853393838198249811120541639694857957945304962320111573 106448996000203767997751342906182721206164918357767040023126252296160220718638803407125922093183922548702271129318888134529864542398966732539799277988266315494246223697074247618062034221640976720082358068556572594856590718848110554972663521766662597656250000000000000000000000000000000000000000000000000000000000000000000000000000000000000000000000000000000000000000000000000000000000000000000000000000000000000000000000000000000000000000000000000000000000000000000000000000000000000000000000000000000000000000000000000000000000000000000000000000000000000000000000000000000000000000000000000000000000000000000000000)
    phase := ProcessPhase.Ponto
    brix := (mkRat 311403473743726287933861527279301866654963489246379954168144161430180239331415731883795113360590455068597798117510900538700320324500823566378881557206585151545318322136564146041378810703849250154468440657416668655090122553616626338455062391392785297254016829927835231268286979578963768574098726532471690764493556715606176186850965134711202892344682925940936597086128790954284194237071194041725214232113538509829092577678771140639914554216560947019299217182780133820708425498801858505395366190816797050018341922632890490544899661355057426543818656680870410400834021974387529503513145938379142036251744167815309300489 5322449800010188399887567145309136060308245917888352001156312614808011035931940170356296104659196127435113556465944406726493227119948336626989963899413315774712311184853712380903101711082048836004117903427828629742829535942405527748633176088333129882812500000000000000000000000000000000000000000000000000000000000000000000000000000000000000000000000000000000000000000000000000000000000000000000000000000000000000000000000000000000000000000000000000000000000000000000000000000000000000000000000000000000000000000000000000000000000000000000000000000000000000000000000000000000000000000000000000000000000000000000000)
    auto := false
    alarms := [Alarm.mk AlarmMsg.systemStarted Severity.info, Alarm.mk AlarmMsg.phaseConcentracao Severity.info, Alarm.mk AlarmMsg.phasePonto Severity.info]
    efficiency := (mkRat 659983775201263361586058326018332871478222493818155648143382764236193368455560581123888501856984656521602586905727729842330073339249276520052820389452325217852726057216839792491441087228372970497846659382698157092328796692419096864655898208477869855064197502415019486108765920117684655389145183793235748032232227580247184923431046233774556361011750738217065410830261515934565566334909579113130013185245230772926456567487566248222634657801437163275139114549637315634923120568413081772121415733595055334340309118043012989126858142431944574468482247989629826312264720268898968053262253689186574416029380802126973949 6812735744013041151856085945995694157194554774897090561480080146954254125992883418056059013963771043116945352276408840609911330713533870882547153791249044191631758316612751847555970190185022510085270916387620646070821806006279075518250465393066406250000000000000000000000000000000000000000000000000000000000000000000000000000000000000000000000000000000000000000000000000000000000000000000000000000000000000000000000000000000000000000000000000000000000000000000000000000000000000000000000000000000000000000000000000000000000000000000000000000000000000000000000000000000000000000000000000000000000000000000000000)
    protectionActive := false
    originalRpm := (40 : Rat)

/-- Checkpoint state `ckQ2` of the evaluation trajectory. -/
def ckQ2 : CoreState where
    temperature := (mkRat 596416331769177567469395770620177733503550429679757461677424175491277024003985376374115744767262600921445602158590495042872315106316631927099707189287688248177988872728341648628566457127877320428188054166155828175327493551010791285353044987075363523678617322433682379334335100433182179866207361233563210135893519221935850970154672624951887295133070954956107845094467621852094321760456972733860461820803096169522448775979657724300315577107130983103317022017036845195113101545860664537128003612324826715694769225418263752544442205983313619696849112567142378667755203407588019062550564903998111955198627968312940906657989744745746832570850177141545332657801 5075883674631298446548049111661087093647237699402191163212120642478953395778598947864814858111568572459329182115501791693204142684887253405561412715352359556877432999471390133765317641336487613681905654361561422102765594427495506046899009788830881007015705108642578125000000000000000000000000000000000000000000000000000000000000000000000000000000000000000000000000000000000000000000000000000000000000000000000000000000000000000000000000000000000000000000000000000000000000000000000000000000000000000000000000000000000000000000000000000000000000000000000000000000000000000000000000000000000000000000000000000000000000000000000000000000000000000000000000)
    setpoint := (130 : Rat)
    rpm := (40 : Rat)
    torque := (mkRat 19818870973527861644297622090556736819779229529306960442730903062934862489752897457913148957848907600106289044857650716992281020625491052097061576063041635557121859794808354500747657816160396150584733630705571965365787117541273457542885475295595338890044711425570906015552377089695238034175418474172561535586708089184827787476334466687640629399064597686291346343795459674514223699447168868022998916780936553350377132964862076177859937472050455303512758199245673332769920078531814401058115445586720457024763679612275179047083472067014058465657811332840172876304889052943000994580398596053990420207575969986191352403255606194781802856969885941871764123184658177 317242729664456152909253069478817943352952356212636947700757540154934587236162434241550928631973035778708073882218861980825258917805453337847588294709522472304839562466961883360332352583530475855119103397597588881422849651718469127931188111801930062938481569290161132812500000000000000000000000000000000000000000000000000000000000000000000000000000000000000000000000000000000000000000000000000000000000000000000000000000000000000000000000000000000000000000000000000000000000000000000000000000000000000000000000000000000000000000000000000000000000000000000000000000000000000000000000000000000000000000000000000000000000000000000000000000000000000000000000000)
    phase := ProcessPhase.Ponto
    brix := (mkRat 980399722110509603182943161901301192206086816714440333163619020757218229025575919288296853377040280918838387307097968089623258411918981170455035966476473602607330216667152729151740968044424840550957918321687869581730880865898751897499358386823208150481204852028139074600804665761770621162341625669263163475494707993725117780690188733280589974608363282519352662413892662303417902793542346536183052821729713521846921111191355331458870597410582618458285557714605915469151552614020326805272483616340301001046352659673599114665498819732988385872865267584796037026967143082098633573819658988196778318629970562796817707179814346258386036209995180642468906613436261 15862136483222807645462653473940897167647617810631847385037877007746729361808121712077546431598651788935403694110943099041262945890272666892379414735476123615241978123348094168016617629176523792755955169879879444071142482585923456396559405590096503146924078464508056640625000000000000000000000000000000000000000000000000000000000000000000000000000000000000000000000000000000000000000000000000000000000000000000000000000000000000000000000000000000000000000000000000000000000000000000000000000000000000000000000000000000000000000000000000000000000000000000000000000000000000000000000000000000000000000000000000000000000000000000000000000000000000000000000000)
    auto := false
    alarms := [Alarm.mk AlarmMsg.systemStarted Severity.info, Alarm.mk AlarmMsg.phaseConcentracao Severity.info, Alarm.mk AlarmMsg.phasePonto Severity.info]
    efficiency := (mkRat 1966904923919628148037369030768671248788304608518349075744696748960594440864207092297615756457386115485464481329775978800037433631236190346601288622432825328534895782585616984745202220288728976122302580843777412143074204046434577918015777630059701395572857701767178473084335100433182179866207361233563210135893519221935850970154672624951887295133070954956107845094467621852094321760456972733860461820803096169522448775979657724300315577107130983103317022017036845195113101545860664537128003612324826715694769225418263752544442205983313619696849112567142378667755203407588019062550564903998111955198627968312940906657989744745746832570850177141545332657801 20303534698525193786192196446644348374588950797608764652848482569915813583114395791459259432446274289837316728462007166772816570739549013622245650861409438227509731997885560535061270565345950454727622617446245688411062377709982024187596039155323524028062820434570312500000000000000000000000000000000000000000000000000000000000000000000000000000000000000000000000000000000000000000000000000000000000000000000000000000000000000000000000000000000000000000000000000000000000000000000000000000000000000000000000000000000000000000000000000000000000000000000000000000000000000000000000000000000000000000000000000000000000000000000000000000000000000000000000000)
    protectionActive := false
    originalRpm := (40 : Rat)

/-- Checkpoint state `ckQ3` of the evaluation trajectory. -/
def ckQ3 : CoreState where
    temperature := (mkRat 1777459179667167566625463278949790398787112324475519244901609943781128597271398831528770166123235270370020042977860991365700970932629951289572146653651267755024695295846326303459546321028792555031557355887318537966838622664819092996502999107459657943064805903302762736283521359488840322605277351751846303826759903663353631947727669045208840644712091298383380513833818395890330177628082962711852112280777593404859152096508606525841774446383147491911035957221872347119171509237772806949744048999638419219581248183510912520303227207969836748597538868477024926149716070983283203289131220196697764755760846410523485120577916407545215974046063730137172389414233494944510922727126870543385193079909022949 15127312167380149503195432161274811904571168718940589318311573989626626359756585800244852477644588269172099775420134638825667329683563868420009054885364650359384515879963010948197000149895213883167224092368964618750708086572574097057876020040604117533611372437007958069443702697753906250000000000000000000000000000000000000000000000000000000000000000000000000000000000000000000000000000000000000000000000000000000000000000000000000000000000000000000000000000000000000000000000000000000000000000000000000000000000000000000000000000000000000000000000000000000000000000000000000000000000000000000000000000000000000000000000000000000000000000000000000000000000000000000000000000000000000000000000000)
    setpoint := (130 : Rat)
    rpm := (40 : Rat)
    torque := (mkRat 62756847837172636155510709663842680718220795632354342113442305497049933829635714780170933406875669834179213308531500032370576460448441121541224041263330262800651122050816088273352009580978427384871171594098152258826920602960645075847844871724208883386087525716650222860513025551504822717556540309041506336972187653365829730517597137603746228824142030706894672738807948700172155686769739986389082771128230112826791511963022613877843293595927519902840403871969224165606044273912779031633818458143870126332489717637901330489925784190890306705112453484933873231411890695104477785167960143954856447785580084000904890264382053103242196879425884167874971151621540088460345589065925452524807440665605405384573 945457010461259343949714510079675744035698044933786832394473374351664147484786612515303279852786766823256235963758414926604208105222741776250565930335290647461532242497688184262312509368450867697951505773060288671919255410785881066117251252537757345850710777312997379340231418609619140625000000000000000000000000000000000000000000000000000000000000000000000000000000000000000000000000000000000000000000000000000000000000000000000000000000000000000000000000000000000000000000000000000000000000000000000000000000000000000000000000000000000000000000000000000000000000000000000000000000000000000000000000000000000000000000000000000000000000000000000000000000000000000000000000000000000000000000000000000)
    phase := ProcessPhase.Ponto
    brix := (mkRat 3077819265440538133421450610057431914983165131478087394041550203808493721245356562549331058815720930153265344738517878517789634376231705654418172303672113931277780252286961784738732803418671970717576943197639239633551802563761738333229389510617392749654722845407980066484880028873553248629149590522880549449529055776020974528912555110017446288344029466488507298822871071838260099440974929002355610047671694908174289237874194952584927898419472671951002980505741866152368067911807564716921906682135357450668579618502873119292638768629167888948413527532417178792051719511456807823998315941754497793756904957784713673142903652249670290679966936670773428941755215005366715030954596585555243971786143889489 47272850523062967197485725503983787201784902246689341619723668717583207374239330625765163992639338341162811798187920746330210405261137088812528296516764532373076612124884409213115625468422543384897575288653014433595962770539294053305862562626887867292535538865649868967011570930480957031250000000000000000000000000000000000000000000000000000000000000000000000000000000000000000000000000000000000000000000000000000000000000000000000000000000000000000000000000000000000000000000000000000000000000000000000000000000000000000000000000000000000000000000000000000000000000000000000000000000000000000000000000000000000000000000000000000000000000000000000000000000000000000000000000000000000000000000000000)
    auto := false
    alarms := [Alarm.mk AlarmMsg.systemStarted Severity.info, Alarm.mk AlarmMsg.phaseConcentracao Severity.info, Alarm.mk AlarmMsg.phasePonto Severity.info]
    efficiency := (mkRat 5861833464859807932488229962493989613021327878589478360845734920980317714405676997594880335087274103046486982341297343848631149947192195762974591472699723352058514583436339259472736361500500303486707860826938985029529806039414099202129524518422769677139876461294911415033321087882395010105277351751846303826759903663353631947727669045208840644712091298383380513833818395890330177628082962711852112280777593404859152096508606525841774446383147491911035957221872347119171509237772806949744048999638419219581248183510912520303227207969836748597538868477024926149716070983283203289131220196697764755760846410523485120577916407545215974046063730137172389414233494944510922727126870543385193079909022949 60509248669520598012781728645099247618284674875762357273246295958506505439026343200979409910578353076688399101680538555302669318734255473680036219541458601437538063519852043792788000599580855532668896369475858475002832346290296388231504080162416470134445489748031832277774810791015625000000000000000000000000000000000000000000000000000000000000000000000000000000000000000000000000000000000000000000000000000000000000000000000000000000000000000000000000000000000000000000000000000000000000000000000000000000000000000000000000000000000000000000000000000000000000000000000000000000000000000000000000000000000000000000000000000000000000000000000000000000000000000000000000000000000000000000000000000)
    protectionActive := false
    originalRpm := (40 : Rat)

/-- Checkpoint state `ckQ4` of the evaluation trajectory. -/
def ckQ4 : CoreState where
    temperature := (mkRat 5297241150340937276558468577116103168687559141145703926389247011486079088662263248946577805647966628143281710427581907010996650200269509723123026889791326122508089999121383917980127463739861289466214575772674710207012020503159402938876133232464352596012139416068388566983074391040310845204123029711719942154208070683299325268638154081037520625728991883827902090576703500976769735719692987222208667409065298100344073860369102016458492598665351327600766514403748767902370475067866324480386846580714606619160495165598937951610940987283570732109112106115745431767660363054017753069814136961896665121343515634094830289359792511002443175301785181201599767195517967159616307900241868871694262673278187092338397220221186008134755067195906257358801 45082903407156912991986966613754069520745184179963437671397846906264502882232027650609172814025247899210750387370987650232515721570145691692856117741360218403889286160358819211116433590338271508119178093579306062313044329203886082940924227358711116116080798020982617346774645739060360938310623168945312500000000000000000000000000000000000000000000000000000000000000000000000000000000000000000000000000000000000000000000000000000000000000000000000000000000000000000000000000000000000000000000000000000000000000000000000000000000000000000000000000000000000000000000000000000000000000000000000000000000000000000000000000000000000000000000000000000000000000000000000000000000000000000000000000000000000000000000000000000000000000000000000000)
    setpoint := (130 : Rat)
    rpm := (40 : Rat)
    torque := (mkRat 198033027240705054681403472500156803425193418555917679351397526335397906081568618124852158769073488635027427118501600275606156640555597946023625809618276567705460292540734545096772093819012320949841689416842257229076042885900511789388340054354246520953027115934153825626483759554695710890767244411445040024150844012035725290026613105698740032279340913407570379140089426045304672979235604172652936972692094557178804197457098615222751272656813113271531130304928064594965502110328742332142502629381271164548208672100502769963296497266570073755792415685663459471824916861056437220075057722484904211871998598879469430898975306764908488296061306799499443918615693866060346829243927331935317407058935275246755994307289053303202475118779046336144135177 2817681462947307061999185413359629345046574011247714854462365431641531430139501728163073300876577993700671899210686728139532232598134105730803507358835013650243080385022426200694777099396141969257448630848706628894565270575242880183807764209919444757255049876311413584173415358691272558644413948059082031250000000000000000000000000000000000000000000000000000000000000000000000000000000000000000000000000000000000000000000000000000000000000000000000000000000000000000000000000000000000000000000000000000000000000000000000000000000000000000000000000000000000000000000000000000000000000000000000000000000000000000000000000000000000000000000000000000000000000000000000000000000000000000000000000000000000000000000000000000000000000000000000000000)
    phase := ProcessPhase.Ponto
    brix := (mkRat 9637533641358154789129357052506740131226346817291266385873074265052432732523519854588377773736210728218363128595025015877232413588832186217698445976585213238368442956942553150880973924474838110785400344192751884674003060790271937099251670672960025282975252730203193120746486903411378233083422247496137254541584958255030646057462525592904508406169334369333959681975609551210056604756433979126180435465863150303329754822130927403778222788316047039642160435419495687111218399027975028118697294199208640755558112905655046618167457630981834102357426014887188428386968318072807206482044692499362149797408391501949412573196139722460922040678646766176032841631649036594099161799039183039520453819391631348454478632702354364924048244455452662090597261 140884073147365353099959270667981467252328700562385742723118271582076571506975086408153665043828899685033594960534336406976611629906705286540175367941750682512154019251121310034738854969807098462872431542435331444728263528762144009190388210495972237862752493815570679208670767934563627932220697402954101562500000000000000000000000000000000000000000000000000000000000000000000000000000000000000000000000000000000000000000000000000000000000000000000000000000000000000000000000000000000000000000000000000000000000000000000000000000000000000000000000000000000000000000000000000000000000000000000000000000000000000000000000000000000000000000000000000000000000000000000000000000000000000000000000000000000000000000000000000000000000000000000000000)
    auto := false
    alarms := [Alarm.mk AlarmMsg.systemStarted Severity.info, Alarm.mk AlarmMsg.phaseConcentracao Severity.info, Alarm.mk AlarmMsg.phasePonto Severity.info]
    efficiency := (mkRat 17469625070273303784394949562829701939288758869735832097666665676177494866864910714611054465434783560930184315017748572573775895024208846480194178679958585091558197262418265104981564533131194596658392661039087347031533989388208645332925674619316353947353954881733695250612228740586608298547991285326954317154208070683299325268638154081037520625728991883827902090576703500976769735719692987222208667409065298100344073860369102016458492598665351327600766514403748767902370475067866324480386846580714606619160495165598937951610940987283570732109112106115745431767660363054017753069814136961896665121343515634094830289359792511002443175301785181201599767195517967159616307900241868871694262673278187092338397220221186008134755067195906257358801 180331613628627651967947866455016278082980736719853750685591387625058011528928110602436691256100991596843001549483950600930062886280582766771424470965440873615557144641435276844465734361353086032476712374317224249252177316815544331763696909434844464464323192083930469387098582956241443753242492675781250000000000000000000000000000000000000000000000000000000000000000000000000000000000000000000000000000000000000000000000000000000000000000000000000000000000000000000000000000000000000000000000000000000000000000000000000000000000000000000000000000000000000000000000000000000000000000000000000000000000000000000000000000000000000000000000000000000000000000000000000000000000000000000000000000000000000000000000000000000000000000000000000000)
    protectionActive := false
    originalRpm := (40 : Rat)

/-- Checkpoint state `ckQ5` of the evaluation trajectory. -/
def ckQ5 : CoreState where
    temperature := (mkRat 15787008852782658566708769134033033754490492168503117341963192854780194427556584027250342981958289826384971003188526427538332820914309949565752772013234479144979103460833614402541697567928557088361775058786976988394540286855700095339067200400178651055220957008321059066680793783937297210867384311154186180489842791238473349471636728036434595291059366277019018551869556566747562411082805233875788347663563784591881608137268082486885053239077062551237563221564694175220080603946111045973863805417682213677882482724929761160158922775142189386211169262098915923755993745698752900917258955778319631264507888799154163580221439997512334247583756394610758291868791189724169650297746587376121989005490641401492715554932103051521353692483460000812967878817136999830149715567781273837840071949 134357522151341775035819311779004542591408443987260573123091003019405910021758161934045472186879062352212519608053528220154391889483170782604384773198843653213647860766526517901171545953566645110008651297030765003898871926080841073217762194152805555212738508048601798256560104307712200100155541804269887506961822509765625000000000000000000000000000000000000000000000000000000000000000000000000000000000000000000000000000000000000000000000000000000000000000000000000000000000000000000000000000000000000000000000000000000000000000000000000000000000000000000000000000000000000000000000000000000000000000000000000000000000000000000000000000000000000000000000000000000000000000000000000000000000000000000000000000000000000000000000000000000000000000000000000000000000000000000000000000)
    setpoint := (130 : Rat)
    rpm := (40 : Rat)
    torque := (mkRat 622976044873935844774574910221475827746392160862207430178144762951010722864459074656155586269487517179320825473000096884608069870479705080733920664631001861735823042239351337533741334864455433643578345531588854749033570832949455015955277971931117197081743607013953452325575227308528326889020239219283405582684605023983273793688501607842748208066068670220632039467660644943034199355404006339755969132682290171510768653642949586939972545015946337064960589579420981075887240761821873779472680094682382003796941992532949912244292289910331186036209680038887081727892802201860856195893266069779422976480783470862029186635848787268866992189439131960869616460766258654268845739530259326071717667793883213696787166434862584095017346987602255784787096674804296255410268874477862252838837463657573 8397345134458860939738706986187783911963027749203785820193187688712869376359885120877842011679941397013282475503345513759649493092698173912774048324927728325852991297907907368823221622097915319375540706064422812743679495380052567076110137134550347200796156753037612391035006519232012506259721362766867969185113906860351562500000000000000000000000000000000000000000000000000000000000000000000000000000000000000000000000000000000000000000000000000000000000000000000000000000000000000000000000000000000000000000000000000000000000000000000000000000000000000000000000000000000000000000000000000000000000000000000000000000000000000000000000000000000000000000000000000000000000000000000000000000000000000000000000000000000000000000000000000000000000000000000000000000000000000000000000000000)
    phase := ProcessPhase.Ponto
    brix := (mkRat 30107650407387198371765681045386430541154836205086527278600229505518929417421035885021939481439727834399824163874751367522999906907119109963528613243530885797672744341564888005684043612683092833109187875898987243026738821845211932314103638085900883122122645593507943006899237894943794096723546496709718193830668451992691146212190208782087952453495859305097128428211013166607078846002986183369970526733054514289187407900406320574928417395039986073167348855468492158136080595569938328710113243437283746639307408135195066714547561545506951522656747043896637256108146571909613642079997157878003787738624653698395599435317554391642267275610104167360688019468996844546570946740715182791762718357488023113948753511332221863169747055814179821892412535555111109383532487653994179697415667478489 419867256722943046986935349309389195598151387460189291009659384435643468817994256043892100583997069850664123775167275687982474654634908695638702416246386416292649564895395368441161081104895765968777035303221140637183974769002628353805506856727517360039807837651880619551750325961600625312986068138343398459255695343017578125000000000000000000000000000000000000000000000000000000000000000000000000000000000000000000000000000000000000000000000000000000000000000000000000000000000000000000000000000000000000000000000000000000000000000000000000000000000000000000000000000000000000000000000000000000000000000000000000000000000000000000000000000000000000000000000000000000000000000000000000000000000000000000000000000000000000000000000000000000000000000000000000000000000000000000000000000)
    auto := false
    alarms := [Alarm.mk AlarmMsg.systemStarted Severity.info, Alarm.mk AlarmMsg.phaseConcentracao Severity.info, Alarm.mk AlarmMsg.phasePonto Severity.info]
    efficiency := (mkRat 52063539833644937826379983314364260254170772045063472085197763670019790133431287749442620472415636661482351297362979046980018631074766060868936660776922265512664025867795774235858014975391551268064110908985283539447235706897527185107862992821436150962660354181443544595952021947019591237909380598307055807369534868875192099471636728036434595291059366277019018551869556566747562411082805233875788347663563784591881608137268082486885053239077062551237563221564694175220080603946111045973863805417682213677882482724929761160158922775142189386211169262098915923755993745698752900917258955778319631264507888799154163580221439997512334247583756394610758291868791189724169650297746587376121989005490641401492715554932103051521353692483460000812967878817136999830149715567781273837840071949 537430088605367100143277247116018170365633775949042292492364012077623640087032647736181888747516249408850078432214112880617567557932683130417539092795374612854591443066106071604686183814266580440034605188123060015595487704323364292871048776611222220850954032194407193026240417230848800400622167217079550027847290039062500000000000000000000000000000000000000000000000000000000000000000000000000000000000000000000000000000000000000000000000000000000000000000000000000000000000000000000000000000000000000000000000000000000000000000000000000000000000000000000000000000000000000000000000000000000000000000000000000000000000000000000000000000000000000000000000000000000000000000000000000000000000000000000000000000000000000000000000000000000000000000000000000000000000000000000000000000)
    protectionActive := false
    originalRpm := (40 : Rat)

/-- Checkpoint state `ckQ6` of the evaluation trajectory. -/
def ckQ6 : CoreState where
    temperature := (mkRat 47048952736802871724095252555707197649748600031444780057558992072284801088442158780247995203609138209775003951627694771979586611535557961000405816230611030393211632116723655396495331857366014985221165462762433593302320832040892232529609913684641177939560945139830202958916646734102304031012482502388499888627351663482401807393235044865202685511941882089689414728014416249132482685590936682223635311704144740783500645166480421290803211142104999827153281183910548821865647813632512734284004651150985042912632683611320186191486964246923939327813713938289046772426408473636957083549793005575541139251352138120713830755057243733208707400048660287631324098643698326960185801049158912097705570475274594036767154669268098232175385144322708023135187036060941183092769048997356882195080143337132868448908672426522780706417068783059801 400416619036620184885917043027295299146796596012296000489863762317317456071848159831897831520077771998085140013854289710981821684489163108481123367544542709629678311248202675286446648697753683060433421424122944485839819687845829347424990517356412277259643399860268230010748220407105088532434528482764624079948134749429300427436828613281250000000000000000000000000000000000000000000000000000000000000000000000000000000000000000000000000000000000000000000000000000000000000000000000000000000000000000000000000000000000000000000000000000000000000000000000000000000000000000000000000000000000000000000000000000000000000000000000000000000000000000000000000000000000000000000000000000000000000000000000000000000000000000000000000000000000000000000000000000000000000000000000000000000000000000000000000000000000000000000000000000)
    setpoint := (130 : Rat)
    rpm := (40 : Rat)
    torque := (mkRat 1954339973998062898946567061551031839616917920776749294418094041572315924701525050560186980143480564161114971404054357578613335371757207850273520946884763110948491284346306816184773737400946546029910879107201334795357652280426607861483232002023337320827001975082849838880495780967236032027524105338409617132406585845422788726797952273471190616225637923139597167235220627638062377417847920565011521989053505443359606478775961504898616383045941212228349324578064596378158416230398255488150351378036703273998678118475757892503326367174230321330904380773276621938194458749580483606082658862668086099689980159565160010268035477403882327903111848717135266819337591706024952764951427675395223278322309614597797789109456299097451741299464047396571605536829456240383045616019981967859740156088210756547629642511296595869529520779880612177 25026038689788761555369815189205956196674787250768500030616485144832341004490509989493614470004860749880321250865893106936363855280572694280070210471533919351854894453012667205402915543609605191277088839007684030364988730490364334214061907334775767328727712491266764375671763775444068033277158030172789004996758421839331276714801788330078125000000000000000000000000000000000000000000000000000000000000000000000000000000000000000000000000000000000000000000000000000000000000000000000000000000000000000000000000000000000000000000000000000000000000000000000000000000000000000000000000000000000000000000000000000000000000000000000000000000000000000000000000000000000000000000000000000000000000000000000000000000000000000000000000000000000000000000000000000000000000000000000000000000000000000000000000000000000000000000000000000000)
    phase := ProcessPhase.Ponto
    brix := (mkRat 93857086761513085445232891136727973480906295131758308228648023230303981496454527765413473288318270936331199918871431720532445767383802109405391684165399644395842682754018673227143866332371084566346471551688026667010599946717908201116896859729335725591553418661536422206520898362196032016161146098320536613480507423029957282186866395027831997868688926329842133826840308210058973693711883967535698112213528399015194639948280063587265480973772163896972506672312588579358806319594292485414803579353663518619662455710243291232534916922854802309756523131265209377670188397869597898848563050535271243648872401108387042687381780735375309629708951354245152119126940494620772652040201169382896758238970828785822441793357308412568383435188621720981898825499836179171114603493802054979989020679783553093561815880759011093078712145628758261 1251301934489438077768490759460297809833739362538425001530824257241617050224525499474680723500243037494016062543294655346818192764028634714003510523576695967592744722650633360270145777180480259563854441950384201518249436524518216710703095366738788366436385624563338218783588188772203401663857901508639450249837921091966563835740089416503906250000000000000000000000000000000000000000000000000000000000000000000000000000000000000000000000000000000000000000000000000000000000000000000000000000000000000000000000000000000000000000000000000000000000000000000000000000000000000000000000000000000000000000000000000000000000000000000000000000000000000000000000000000000000000000000000000000000000000000000000000000000000000000000000000000000000000000000000000000000000000000000000000000000000000000000000000000000000000000000000000000)
    auto := false
    alarms := [Alarm.mk AlarmMsg.systemStarted Severity.info, Alarm.mk AlarmMsg.phaseConcentracao Severity.info, Alarm.mk AlarmMsg.phasePonto Severity.info]
    efficiency := (mkRat 155161439876690321643292854173076928419383680954764700189822207897960514227841161934860409714030136649257991755368352993944678466347632000290309125467637561993224776153738377723835927005759509411538189247275628604479072147759266156334357353370872492799664663102102625061818666244020677934769805192734948390213348045828312922801178770451140185511941882089689414728014416249132482685590936682223635311704144740783500645166480421290803211142104999827153281183910548821865647813632512734284004651150985042912632683611320186191486964246923939327813713938289046772426408473636957083549793005575541139251352138120713830755057243733208707400048660287631324098643698326960185801049158912097705570475274594036767154669268098232175385144322708023135187036060941183092769048997356882195080143337132868448908672426522780706417068783059801 1601666476146480739543668172109181196587186384049184001959455049269269824287392639327591326080311087992340560055417158843927286737956652433924493470178170838518713244992810701145786594791014732241733685696491777943359278751383317389699962069425649109038573599441072920042992881628420354129738113931058496319792538997717201709747314453125000000000000000000000000000000000000000000000000000000000000000000000000000000000000000000000000000000000000000000000000000000000000000000000000000000000000000000000000000000000000000000000000000000000000000000000000000000000000000000000000000000000000000000000000000000000000000000000000000000000000000000000000000000000000000000000000000000000000000000000000000000000000000000000000000000000000000000000000000000000000000000000000000000000000000000000000000000000000000000000000000000)
    protectionActive := false
    originalRpm := (40 : Rat)

/-- Checkpoint state `ckQ7` of the evaluation trajectory. -/
def ckQ7 : CoreState where
    temperature := (mkRat 140216805746563886773870147930703156142677664850487649612304544664278033639318224132800087939528042703196418141209718706655195869387461315022603082055423658169273606273280047897600840003255498509989238637505424921829924975187632548725069525210926329320048060205430731535874374358433405797097690374598811050450951385512494179696885514199064559145887986065740050849552387098479517105567366113299139137126101521461523376455786391596549489741607945721545689829098279079326242156620163568857666374551047455881668340890913037264945567536491921146765493873908119889993059845536056349199389920151347486367135250284882076112705613026155698804472351192440088231298548264610434471209681369729131081242318105110249733349544072293172291153570336739045827841905435300747723484831388145884071932399839076304843010621476205173330804012871616768308875643080126084352157691324920120949 1193334516992033078926554450474069413980235445536065103083442933313004541611218928789787982464068448537841856520933776232546036495236048425677786372734733550637001726771005020399232651882629642070631448698410226362466274761694161139205069891680515638767610191882456034453952969333842660583360578068389368295514985172239841304531182686332613229751586914062500000000000000000000000000000000000000000000000000000000000000000000000000000000000000000000000000000000000000000000000000000000000000000000000000000000000000000000000000000000000000000000000000000000000000000000000000000000000000000000000000000000000000000000000000000000000000000000000000000000000000000000000000000000000000000000000000000000000000000000000000000000000000000000000000000000000000000000000000000000000000000000000000000000000000000000000000000000000000000000000000000000000000000000000000000)
    setpoint := (130 : Rat)
    rpm := (40 : Rat)
    torque := (mkRat 6115635201578402557433504432037118371024528041455150506012592959591407228481949842182277276065497235624187069799559128031405006343559938914106166980285888951434029312894542535578165018785848894299744691031510037909572517159502584050380683737610747669415405381866322219703347967721555522845727636705609086739461531468815174204857858183704445282919122459535254750473453393334789051084182211058704101880158475176123855709474689594777041335531375080465229936619344384994047683169452948551735150319394854365344952492057953857450497954909760747348934844710770793663574743457265683998602891671116312467471247079851311106028137510834958558949089657854638016675817109465694372535862200128238096398489046424402507203005812322327491123454964848304719857860455298347196266837969109363236058012747238805726533502419590244905225882855753503997056702786664733719293777467447331494930573 74583407312002067432909653154629338373764715346004068942715183332062783850701183049361748904004278033615116032558361014534127280952253026604861648295920846914812607923187813774952040742664352629414465543650639147654142172605885071200316868230032227422975636992653502153372060583365166286460036129274335518469686573264990081533198917895788326859474182128906250000000000000000000000000000000000000000000000000000000000000000000000000000000000000000000000000000000000000000000000000000000000000000000000000000000000000000000000000000000000000000000000000000000000000000000000000000000000000000000000000000000000000000000000000000000000000000000000000000000000000000000000000000000000000000000000000000000000000000000000000000000000000000000000000000000000000000000000000000000000000000000000000000000000000000000000000000000000000000000000000000000000000000000000000000000)
    phase := ProcessPhase.Ponto
    brix := (mkRat 292022178010130617326107354888161886493437394583627911608516404864791982657299822311639546382037022590820351020289365303652212563678195966108085544877846957120790019608811797852576906480602900944232351697061275583854226774674592597599326633749201046278611782103716601803069716082145801263435268538783183053653726264097538101741351266532092426876909031080714989456624791267667143003556994833466370501978527120117909396174986884286353859247804580864728025490958213450452719007159983741622611985326543142197674048960195233413401322038440594958405697663835385647756679301011226084448009507230266723977658327317661032649076232852181347561229140472731183803203539836578635459261783104010060411203762524974753825479118830520879906624857669646678303853258674578050546486111370818164903859693545301650416908552940432883319403500947331154805212793802735227575793414117492880067489 3729170365600103371645482657731466918688235767300203447135759166603139192535059152468087445200213901680755801627918050726706364047612651330243082414796042345740630396159390688747602037133217631470723277182531957382707108630294253560015843411501611371148781849632675107668603029168258314323001806463716775923484328663249504076659945894789416342973709106445312500000000000000000000000000000000000000000000000000000000000000000000000000000000000000000000000000000000000000000000000000000000000000000000000000000000000000000000000000000000000000000000000000000000000000000000000000000000000000000000000000000000000000000000000000000000000000000000000000000000000000000000000000000000000000000000000000000000000000000000000000000000000000000000000000000000000000000000000000000000000000000000000000000000000000000000000000000000000000000000000000000000000000000000000000000)
    auto := false
    alarms := [Alarm.mk AlarmMsg.systemStarted Severity.info, Alarm.mk AlarmMsg.phaseConcentracao Severity.info, Alarm.mk AlarmMsg.phasePonto Severity.info]
    efficiency := (mkRat 442269060420747694985149404355496615864694124085582449264384693266699854069426369354598878833141215098217911153700061025241637691004779097333693706279901914212233153362228796539204632238000642672341926897998843798312876939823263907843454103608733110693703250953745283010441754229708029374173694029091364056132084592900224023690801147830294791594238699172225338690675165942434587730644242778849684196089803818544527940477935798369940277605078066964620091685019764101276553157983569200729117923935328883300382208397660146863392283615495345035579749816815223726097926039327199778602348489453030750438452575365623208327055480793670264679424426845452397621138919198052729129799316954611223546620135872996571555036300862953332870363723228952679450135582320514186682038282583151012660370687515422596039908658810966308004245615335344250485592446028889771794292903719034087181097 4661462957000129214556853322164333648360294709125254308919698958253923990668823940585109306500267377100944752034897563408382955059515814162803853018495052932175787995199238360934502546416522039338404096478164946728383885787867816950019804264377014213935977312040843884585753786460322892903752258079645969904355410829061880095824932368486770428717136383056640625000000000000000000000000000000000000000000000000000000000000000000000000000000000000000000000000000000000000000000000000000000000000000000000000000000000000000000000000000000000000000000000000000000000000000000000000000000000000000000000000000000000000000000000000000000000000000000000000000000000000000000000000000000000000000000000000000000000000000000000000000000000000000000000000000000000000000000000000000000000000000000000000000000000000000000000000000000000000000000000000000000000000000000000000000)
    protectionActive := false
    originalRpm := (40 : Rat)

/-- Checkpoint state `ckQ8` of the evaluation trajectory. -/
def ckQ8 : CoreState where
    temperature := (mkRat 417878644903194566887230121882865298219554617555402665174915029598111014483327341475487017451310285041321570102005358658206935147327759818656199308851440196157791290365601142256843229183489547726907894783416116012079468788386584888657247724506236802067993787906704805390074624517344456254494554775129676353933018623231048295635645122924296099679838691539258119553155585663078328062185320666972275410723249961003725740159676441877930394255278937115595446757763022701704284719797798970167326571278275586527163744800469584379101549959225932438549168160673863564083601060384442772997952546482573441277579506663067775217264630168344565499608524949636331248719328231416309373714337628064996558255978969483092691589821172091678609162229258124669610330690880193005286641579043773392248790821171096420011532456039455868989320031189893784997837494054852665227662134615481164440785771492848213111372340754093533909760801 3556413999176123973508341462832896155060039298343852469573744932749880974326190140216910786819662000351672937038343477942186702773678447084658701338573496194592123409423247040507890736706941253157351758177310902960497959738058332023635714923383342143200666284210848910969355611007936777422906691039768958972439125693559173657092996496953407614682873827405273914337158203125000000000000000000000000000000000000000000000000000000000000000000000000000000000000000000000000000000000000000000000000000000000000000000000000000000000000000000000000000000000000000000000000000000000000000000000000000000000000000000000000000000000000000000000000000000000000000000000000000000000000000000000000000000000000000000000000000000000000000000000000000000000000000000000000000000000000000000000000000000000000000000000000000000000000000000000000000000000000000000000000000000000000000000000000000000000000000000000000000000)
    setpoint := (130 : Rat)
    rpm := (40 : Rat)
    torque := (84 : Rat)
    phase := ProcessPhase.Ponto
    brix := (mkRat 906969428707989926494769596036302230730976380752678462815476686103887385108070127710057005140774632890125647680942698928833549334193329672385049020561055985718840126500023276091472547453806708838809628578195073041144984647701456906868456970984061915415414849200091386084939343887973180303726819684104351232591611806752575061671602252672447799202703309023691728440008878147276283879398323101681671870494145240699261620460747068958716220007247388301165091170640889784897739215551924129013803754453853121982390884095672513035442534873846143999709607197455616206902380209763299163347398326107422297351986177319519010018246854818289831037349811433890955011746416606576496137884544913325634262800174828241184762078498668862035929698916612698010971157357600438972919693396965954108946315987049829535334110530786829217990114614764305899170747135209357238085351227574174357549685206613989591429403439204735436318227919261 11113793747425387417213567071352800484562622807324538967417952914843378044769344188177846208811443751098977928244823368569333446167745147139558441683042175608100385654447647001587158552209191416116724244304096571751556124181432287573861609135572944197502082138158902846779236284399802429446583409499277996788872267792372417678415614052979398795883980710641480982303619384765625000000000000000000000000000000000000000000000000000000000000000000000000000000000000000000000000000000000000000000000000000000000000000000000000000000000000000000000000000000000000000000000000000000000000000000000000000000000000000000000000000000000000000000000000000000000000000000000000000000000000000000000000000000000000000000000000000000000000000000000000000000000000000000000000000000000000000000000000000000000000000000000000000000000000000000000000000000000000000000000000000000000000000000000000000000000000000000000000000000)
    auto := false
    alarms := [Alarm.mk AlarmMsg.systemStarted Severity.info, Alarm.mk AlarmMsg.phaseConcentracao Severity.info, Alarm.mk AlarmMsg.phasePonto Severity.info]
    efficiency := (mkRat 1321207800693930056158348853442420921604804599334741192446646242516580781962179637090582357303504433130646496109744602055522357651842085378159509448849108229584190636359105890545847476307052626028875241360453085364045950561853401222660719315045605706440963024096260428776290949713360397719912854299230991932932556549395078404537266233150461633809288643700197693794793769256828328062185320666972275410723249961003725740159676441877930394255278937115595446757763022701704284719797798970167326571278275586527163744800469584379101549959225932438549168160673863564083601060384442772997952546482573441277579506663067775217264630168344565499608524949636331248719328231416309373714337628064996558255978969483092691589821172091678609162229258124669610330690880193005286641579043773392248790821171096420011532456039455868989320031189893784997837494054852665227662134615481164440785771492848213111372340754093533909760801 14225655996704495894033365851331584620240157193375409878294979730999523897304760560867643147278648001406691748153373911768746811094713788338634805354293984778368493637692988162031562946827765012629407032709243611841991838952233328094542859693533368572802665136843395643877422444031747109691626764159075835889756502774236694628371985987813630458731495309621095657348632812500000000000000000000000000000000000000000000000000000000000000000000000000000000000000000000000000000000000000000000000000000000000000000000000000000000000000000000000000000000000000000000000000000000000000000000000000000000000000000000000000000000000000000000000000000000000000000000000000000000000000000000000000000000000000000000000000000000000000000000000000000000000000000000000000000000000000000000000000000000000000000000000000000000000000000000000000000000000000000000000000000000000000000000000000000000000000000000000000000000)
    protectionActive := false
    originalRpm := (40 : Rat)

/-- Checkpoint state `ckQ9` of the evaluation trajectory. -/
def ckQ9 : CoreState where
    temperature := (mkRat 1245375409433825513384431963809923226295574359760888413116082637304398460636518423186203889403671875719194323128477807814499549793911752595660892408902332489842760101738447316400478968495205680151181047381002009401964429418334007751123826183037395361746573614858731089541085220894915237280912960842649963675300205502876253228823584873435309648930061031663326574138588974487333264340413559083778928464770171068600709273588139302183015131302714203590100833904495064286141433952610641450179840958195290182036689980155054563601554134422421047655818661164174710277094511023212234673997555082051900635778082494725514777994067544709846725243793886449802405786746776046217543862189436621858158333605753796037329345757055720014427268881673658826188236842650699473323275008452889477779347211942241701355437529673717472258473731522891828261032393386244209205728494189129407330160259947301325939615866490333888903229137987913846011689804433851793000862790149169949 10598939654755961816037718840935516819536803061794795005243256487697008175629944027116628845988696814631441047901938789910634466331238886966284219439546752555942903189132353784167440941056434074513172382644745418311649440938408172201024636397908157536985475671919730040339695248031427792975028428553846356190559642593738954237380613377551459117778759680406075460723513970151543617248535156250000000000000000000000000000000000000000000000000000000000000000000000000000000000000000000000000000000000000000000000000000000000000000000000000000000000000000000000000000000000000000000000000000000000000000000000000000000000000000000000000000000000000000000000000000000000000000000000000000000000000000000000000000000000000000000000000000000000000000000000000000000000000000000000000000000000000000000000000000000000000000000000000000000000000000000000000000000000000000000000000000000000000000000000000000000000000000000000000000000000000000000000000000000)
    setpoint := (130 : Rat)
    rpm := (40 : Rat)
    torque := (84 : Rat)
    phase := ProcessPhase.Ponto
    brix := (mkRat 2812281096203606441532297037159700609237054097702650551223623546132059492635157595667373828976906529869891032112093615666366665570901796722052112956696222474867847750490916890528870261518751010080733796087490626934334102095515446205984894716144605364010225303666595742895990440835210296439061028745932250722367383711175435153946868156928380594339376579203134780252720228729014416790167973944088668484592299010193496143366570229664460378794010796817226867202942662189890311423321591993092186347719098755004401891647845975479232063246311587958732294143858502953769745892559309063721790288935274038461004767387553332166174029154794111981715120870843817664682202200394347814630737812778052857081260922742792643004282929951091878071809338230211712021294972708000470251062072774123256582828115471298457877525432577445216518078295119370701460309989909393493933826365129479127565575086232239298216123313499497136662141993118243917664399314346572986893806781656489 33121686421112380675117871377923490061052509568108734391385176524053150548843575084739465143714677545723253274693558718470732707285121521769638185748583601737321572466038605575523252940801356482853663695764829432223904502932525538128201988743462992303079611474749156376061547650098211853046963839230769863095498883105434231991814416804848309743058624001268985814760981156723573803901672363281250000000000000000000000000000000000000000000000000000000000000000000000000000000000000000000000000000000000000000000000000000000000000000000000000000000000000000000000000000000000000000000000000000000000000000000000000000000000000000000000000000000000000000000000000000000000000000000000000000000000000000000000000000000000000000000000000000000000000000000000000000000000000000000000000000000000000000000000000000000000000000000000000000000000000000000000000000000000000000000000000000000000000000000000000000000000000000000000000000000000000000000000000000000)
    auto := false
    alarms := [Alarm.mk AlarmMsg.systemStarted Severity.info, Alarm.mk AlarmMsg.phaseConcentracao Severity.info, Alarm.mk AlarmMsg.phasePonto Severity.info]
    efficiency := (mkRat 3937506081741839814658012549407544498457922337456766344447869785179438537246524206073827616284800866635580349295570260451800704242046429885097084146547207639052257511778065177579008967523539935077526832572767345653123387416689683490184083828106067376140884435526342519787367813894897896696570181695326938147702354721685947605118260671333380264845865990486469741162361522905825343121541488771278928464770171068600709273588139302183015131302714203590100833904495064286141433952610641450179840958195290182036689980155054563601554134422421047655818661164174710277094511023212234673997555082051900635778082494725514777994067544709846725243793886449802405786746776046217543862189436621858158333605753796037329345757055720014427268881673658826188236842650699473323275008452889477779347211942241701355437529673717472258473731522891828261032393386244209205728494189129407330160259947301325939615866490333888903229137987913846011689804433851793000862790149169949 42395758619023847264150875363742067278147212247179180020973025950788032702519776108466515383954787258525764191607755159642537865324955547865136877758187010223771612756529415136669763764225736298052689530578981673246597763753632688804098545591632630147941902687678920161358780992125711171900113714215385424762238570374955816949522453510205836471115038721624301842894055880606174468994140625000000000000000000000000000000000000000000000000000000000000000000000000000000000000000000000000000000000000000000000000000000000000000000000000000000000000000000000000000000000000000000000000000000000000000000000000000000000000000000000000000000000000000000000000000000000000000000000000000000000000000000000000000000000000000000000000000000000000000000000000000000000000000000000000000000000000000000000000000000000000000000000000000000000000000000000000000000000000000000000000000000000000000000000000000000000000000000000000000000000000000000000000000000000)
    protectionActive := false
    originalRpm := (40 : Rat)

/-- Checkpoint state `ckQ10` of the evaluation trajectory. -/
def ckQ10 : CoreState where
    temperature := (mkRat 62268770471691275669221598190496161314778717988044420655804131865219923031825921159310194470183593785959716156423890390724977489695772778863472191325249254137229156569599055138047050608417715803245503228224967592340963448647208389688619249619922844213162296051365135471229669430470089960312358511893464830483911877683462213216620624838732205192090859429638461849354350981481598541432753711476463925478334960989420568934056039763307438807778711904112924183230356864298101584625708602055215387787663415279064009424496582344445069898250210382018741173761066598035740819673154805545929097379505118437564392347039928561827958796585555032070022707044269767815656505340308772003493662033886591674566860085082551026954615880418390797568536105959458868436870284726374975245133794855601069146325009339307688360537806695495738214163863019569939408201082066966126331484752812574647538471738452248860128219682778193645001649501534339004328581701997025020914325928521 529946982737798090801885942046775840976840153089739750262162824384850408781497201355831442299434840731572052395096939495531723316561944348314210971977337627797145159456617689208372047052821703725658619132237270915582472046920408610051231819895407876849273783595986502016984762401571389648751421427692317809527982129686947711869030668877572955888937984020303773036175698507577180862426757812500000000000000000000000000000000000000000000000000000000000000000000000000000000000000000000000000000000000000000000000000000000000000000000000000000000000000000000000000000000000000000000000000000000000000000000000000000000000000000000000000000000000000000000000000000000000000000000000000000000000000000000000000000000000000000000000000000000000000000000000000000000000000000000000000000000000000000000000000000000000000000000000000000000000000000000000000000000000000000000000000000000000000000000000000000000000000000000000000000000000000000000000000000000)
    setpoint := (130 : Rat)
    rpm := (40 : Rat)
    torque := (84 : Rat)
    phase := ProcessPhase.Ponto
    brix := (85 : Rat)
    auto := false
    alarms := [Alarm.mk AlarmMsg.systemStarted Severity.info, Alarm.mk AlarmMsg.phaseConcentracao Severity.info, Alarm.mk AlarmMsg.phasePonto Severity.info]
    efficiency := (mkRat 196875304087091990732900627470377224922896116872838317222393489258971926862326210303691380814240043331779017464778513022590035212102506643335281778207493011597704027071579948196973550559834428549562792487813234404898911348564992176641632131873356444932877837084745706983543799080469222931095219554527313554104019338623946932031354414733635735987881107370795620200542978402406202480489150195851463925478334960989420568934056039763307438807778711904112924183230356864298101584625708602055215387787663415279064009424496582344445069898250210382018741173761066598035740819673154805545929097379505118437564392347039928561827958796585555032070022707044269767815656505340308772003493662033886591674566860085082551026954615880418390797568536105959458868436870284726374975245133794855601069146325009339307688360537806695495738214163863019569939408201082066966126331484752812574647538471738452248860128219682778193645001649501534339004328581701997025020914325928521 2119787930951192363207543768187103363907360612358959001048651297539401635125988805423325769197739362926288209580387757982126893266247777393256843887909350511188580637826470756833488188211286814902634476528949083662329888187681634440204927279581631507397095134383946008067939049606285558595005685710769271238111928518747790847476122675510291823555751936081215092144702794030308723449707031250000000000000000000000000000000000000000000000000000000000000000000000000000000000000000000000000000000000000000000000000000000000000000000000000000000000000000000000000000000000000000000000000000000000000000000000000000000000000000000000000000000000000000000000000000000000000000000000000000000000000000000000000000000000000000000000000000000000000000000000000000000000000000000000000000000000000000000000000000000000000000000000000000000000000000000000000000000000000000000000000000000000000000000000000000000000000000000000000000000000000000000000000000000000)
    protectionActive := false
    originalRpm := (40 : Rat)

/-- Checkpoint state `ckT1` of the evaluation trajectory. -/
def ckT1 : CoreState where
    temperature := (mkRat 3113438523584563783461079909524808065738935899402221032790206593260996151591296057965509723509179689297985807821194519536248874484794008266506009121786308966569101221477576747125022493746951312237182236327319526162087689786545151546271372754569681418307289646512685622392570314709510012807352529217741274279043740357822947662318831295778645219226589399029614953598039714530413051479587882535161203838871713868693196499087625153135915725425582645219274801313680349064644945954145549459601246245842239043092856273310400887988907027049256101078543494039070931343036483770521489360831943824005648434689367378064157928293010805100981095930030658504283823266654038654868954388101316198982711158562438942467393979781683860532133333129487547072824307184669238257064874282108880050812431005243425270839922962455596394169376408210752027567528242837831379942017663613057831564664778615680415115216943718370800567615705047835544495831125528869357913725606515451927109 26497349136889904540094297102338792048842007654486987513108141219242520439074860067791572114971742036578602619754846974776586165828097217415710548598866881389857257972830884460418602352641085186282930956611863545779123602346020430502561590994770393842463689179799325100849238120078569482437571071384615890476399106484347385593451533443878647794446899201015188651808784925378859043121337890625000000000000000000000000000000000000000000000000000000000000000000000000000000000000000000000000000000000000000000000000000000000000000000000000000000000000000000000000000000000000000000000000000000000000000000000000000000000000000000000000000000000000000000000000000000000000000000000000000000000000000000000000000000000000000000000000000000000000000000000000000000000000000000000000000000000000000000000000000000000000000000000000000000000000000000000000000000000000000000000000000000000000000000000000000000000000000000000000000000000000000000000000000000000)
    setpoint := (130 : Rat)
    rpm := (70 : Rat)
    torque := (100 : Rat)
    phase := ProcessPhase.Ponto
    brix := (85 : Rat)
    auto := false
    alarms := [Alarm.mk AlarmMsg.phaseConcentracao Severity.info, Alarm.mk AlarmMsg.phasePonto Severity.info, Alarm.mk AlarmMsg.protectionActivated Severity.warning, Alarm.mk AlarmMsg.highTorque Severity.warning, Alarm.mk AlarmMsg.overloadCritical Severity.error]
    efficiency := (mkRat 8147934859593645646078996358969178555018917353754748660280753424917075035015519470845908425353810676247920305574615444743800245992132479575491013355571016430641980236315444794604556940748757497630939118083573599860121174232289033341758075043576056248375390590674557391553925557524438214470491032780818293469559570589848950925074622650115588300171500247222500797441708850352396269672642081753911203838871713868693196499087625153135915725425582645219274801313680349064644945954145549459601246245842239043092856273310400887988907027049256101078543494039070931343036483770521489360831943824005648434689367378064157928293010805100981095930030658504283823266654038654868954388101316198982711158562438942467393979781683860532133333129487547072824307184669238257064874282108880050812431005243425270839922962455596394169376408210752027567528242837831379942017663613057831564664778615680415115216943718370800567615705047835544495831125528869357913725606515451927109 105989396547559618160377188409355168195368030617947950052432564876970081756299440271166288459886968146314410479019387899106344663312388869662842194395467525559429031891323537841674409410564340745131723826447454183116494409384081722010246363979081575369854756719197300403396952480314277929750284285538463561905596425937389542373806133775514591177787596804060754607235139701515436172485351562500000000000000000000000000000000000000000000000000000000000000000000000000000000000000000000000000000000000000000000000000000000000000000000000000000000000000000000000000000000000000000000000000000000000000000000000000000000000000000000000000000000000000000000000000000000000000000000000000000000000000000000000000000000000000000000000000000000000000000000000000000000000000000000000000000000000000000000000000000000000000000000000000000000000000000000000000000000000000000000000000000000000000000000000000000000000000000000000000000000000000000000000000000000000)
    protectionActive := true
    originalRpm := (100 : Rat)

/-- Checkpoint state `ckT2` of the evaluation trajectory. -/
def ckT2 : CoreState where
    temperature := (mkRat 1544464237816470310880746342352572341546878521160910284670290781316598410092575906201401259651415413957075300198960643042290266140702791927110555030740613630877610529053453116116097891190468236327069014732128154391904964920803960407564124895855399697467024899966361791650740608165370556956626626387256791353560971347319664700392172545582266325123782386110850812394740499194096102725430614786263338655311050435062675255201653425075444442214165524986702860029573474144138897327005594673289607522390412167091364001372501090372372597845106745052683722550776194549172930192960527020992045630449847038143423132626979642551814533268020818369120025330900810208195870640142148084909130397067346548849917534186837831388610622394007599933342427892813548449386840910060213890249603776615664938714600063564654808722980020893386085484915913014581735407970861241039776001469910921645382607327495742675940595907251785610335550642223050136778047940280037788273330552780164643 13248674568444952270047148551169396024421003827243493756554070609621260219537430033895786057485871018289301309877423487388293082914048608707855274299433440694928628986415442230209301176320542593141465478305931772889561801173010215251280795497385196921231844589899662550424619060039284741218785535692307945238199553242173692796725766721939323897223449600507594325904392462689429521560668945312500000000000000000000000000000000000000000000000000000000000000000000000000000000000000000000000000000000000000000000000000000000000000000000000000000000000000000000000000000000000000000000000000000000000000000000000000000000000000000000000000000000000000000000000000000000000000000000000000000000000000000000000000000000000000000000000000000000000000000000000000000000000000000000000000000000000000000000000000000000000000000000000000000000000000000000000000000000000000000000000000000000000000000000000000000000000000000000000000000000000000000000000000000000000)
    setpoint := (130 : Rat)
    rpm := (68 : Rat)
    torque := (100 : Rat)
    phase := ProcessPhase.Ponto
    brix := (85 : Rat)
    auto := false
    alarms := [Alarm.mk AlarmMsg.phasePonto Severity.info, Alarm.mk AlarmMsg.protectionActivated Severity.warning, Alarm.mk AlarmMsg.highTorque Severity.warning, Alarm.mk AlarmMsg.overloadCritical Severity.error, Alarm.mk AlarmMsg.overloadCritical Severity.error]
    efficiency := (mkRat 4061712405821011242189704567074757586186869248337174098415564197144637851804687612641600610573730907432042549075671105646065951894372027581603057147632967362914050036472387139855865114691371329023947455610255191240921707143675901305307476040358587112501075372047297676231418229572834657788195878168795300948818886463332666331770068222750737865596237810207293734316575067105087711821957714395638338655311050435062675255201653425075444442214165524986702860029573474144138897327005594673289607522390412167091364001372501090372372597845106745052683722550776194549172930192960527020992045630449847038143423132626979642551814533268020818369120025330900810208195870640142148084909130397067346548849917534186837831388610622394007599933342427892813548449386840910060213890249603776615664938714600063564654808722980020893386085484915913014581735407970861241039776001469910921645382607327495742675940595907251785610335550642223050136778047940280037788273330552780164643 52994698273779809080188594204677584097684015308973975026216282438485040878149720135583144229943484073157205239509693949553172331656194434831421097197733762779714515945661768920837204705282170372565861913223727091558247204692040861005123181989540787684927378359598650201698476240157138964875142142769231780952798212968694771186903066887757295588893798402030377303617569850757718086242675781250000000000000000000000000000000000000000000000000000000000000000000000000000000000000000000000000000000000000000000000000000000000000000000000000000000000000000000000000000000000000000000000000000000000000000000000000000000000000000000000000000000000000000000000000000000000000000000000000000000000000000000000000000000000000000000000000000000000000000000000000000000000000000000000000000000000000000000000000000000000000000000000000000000000000000000000000000000000000000000000000000000000000000000000000000000000000000000000000000000000000000000000000000000000000)
    protectionActive := true
    originalRpm := (100 : Rat)

/-- Checkpoint state `ckT3` of the evaluation trajectory. -/
def ckT3 : CoreState where
    temperature := (mkRat 768224726068144768502490659918271207710952517447809666561131698150654014361383368951198001937969668142280593685775147851797359120097388572146696519010425956701735857815621928873071778286890691891706779543953241154604068709404742979240161843500272637911987735067357102433977236497756563509128081495160668104771271755729310764435197778336725757533820666572331576937170899507794943037018499633740924240286713492265494808450940669999670332604032126670651835229670526045133419425930829458165701659821664778638876028448807856551765839495349905632227577274103815617579548173098092335864398921157099981472899364369022343114443352378642807606702248283204564938080049699326482423765285639841022321473923033679095970864075673522840485178202973920950030342949496977589689942111620434953322434959674220785642122452414466832137249953567503555768227478406471625820006752480660871378040112596091107855032574861671333894579725060006937394726421676471572356765379090759113838261 6624337284222476135023574275584698012210501913621746878277035304810630109768715016947893028742935509144650654938711743694146541457024304353927637149716720347464314493207721115104650588160271296570732739152965886444780900586505107625640397748692598460615922294949831275212309530019642370609392767846153972619099776621086846398362883360969661948611724800253797162952196231344714760780334472656250000000000000000000000000000000000000000000000000000000000000000000000000000000000000000000000000000000000000000000000000000000000000000000000000000000000000000000000000000000000000000000000000000000000000000000000000000000000000000000000000000000000000000000000000000000000000000000000000000000000000000000000000000000000000000000000000000000000000000000000000000000000000000000000000000000000000000000000000000000000000000000000000000000000000000000000000000000000000000000000000000000000000000000000000000000000000000000000000000000000000000000000000000000000000)
    setpoint := (60 : Rat)
    rpm := (66 : Rat)
    torque := (mkRat 498 5)
    phase := ProcessPhase.Finalizado
    brix := (85 : Rat)
    auto := true
    alarms := [Alarm.mk AlarmMsg.highTorque Severity.warning, Alarm.mk AlarmMsg.overloadCritical Severity.error, Alarm.mk AlarmMsg.overloadCritical Severity.error, Alarm.mk AlarmMsg.phaseFinalizado Severity.info, Alarm.mk AlarmMsg.overloadCritical Severity.error]
    efficiency := (mkRat 2037447749725171195973007491120299346850484684097736368439011662552370743393069166198414306245116111694395659172032317943595836463263245286359231796896149575275898514714221294527122830978398672314659172365661504997424089261779121600312862052149774502965998446779744774764655742449520041717887735814483769258590788956329550534361526230298512986887827138300959113358811697433442291202530584594678424240286713492265494808450940669999670332604032126670651835229670526045133419425930829458165701659821664778638876028448807856551765839495349905632227577274103815617579548173098092335864398921157099981472899364369022343114443352378642807606702248283204564938080049699326482423765285639841022321473923033679095970864075673522840485178202973920950030342949496977589689942111620434953322434959674220785642122452414466832137249953567503555768227478406471625820006752480660871378040112596091107855032574861671333894579725060006937394726421676471572356765379090759113838261 26497349136889904540094297102338792048842007654486987513108141219242520439074860067791572114971742036578602619754846974776586165828097217415710548598866881389857257972830884460418602352641085186282930956611863545779123602346020430502561590994770393842463689179799325100849238120078569482437571071384615890476399106484347385593451533443878647794446899201015188651808784925378859043121337890625000000000000000000000000000000000000000000000000000000000000000000000000000000000000000000000000000000000000000000000000000000000000000000000000000000000000000000000000000000000000000000000000000000000000000000000000000000000000000000000000000000000000000000000000000000000000000000000000000000000000000000000000000000000000000000000000000000000000000000000000000000000000000000000000000000000000000000000000000000000000000000000000000000000000000000000000000000000000000000000000000000000000000000000000000000000000000000000000000000000000000000000000000000000000000)
    protectionActive := true
    originalRpm := (100 : Rat)

/-- Checkpoint state `ckP1` of the evaluation trajectory. -/
def ckP1 : CoreState where
    temperature := (mkRat 200124112480383083835772524663623515867590046512602035243477354316781214951040950405104518414430111111208775627070133101161058516085740235480887508543014734917582370845479042781413099390883951067090872526533763482548324786995259267173991794445887433189197502415019486108765920117684655389145183793235748032232227580247184923431046233774556361011750738217065410830261515934565566334909579113130013185245230772926456567487566248222634657801437163275139114549637315634923120568413081772121415733595055334340309118043012989126858142431944574468482247989629826312264720268898968053262253689186574416029380802126973949 1703183936003260287964021486498923539298638693724272640370020036738563531498220854514014753490942760779236338069102210152477832678383467720636788447812261047907939579153187961888992547546255627521317729096905161517705451501569768879562616348266601562500000000000000000000000000000000000000000000000000000000000000000000000000000000000000000000000000000000000000000000000000000000000000000000000000000000000000000000000000000000000000000000000000000000000000000000000000000000000000000000000000000000000000000000000000000000000000000000000000000000000000000000000000000000000000000000000000000000000000000000000)
    setpoint := (130 : Rat)
    rpm := (40 : Rat)
    torque := (mkRat 6234426254599348622458708487944195151301710116348143821732731796021889976511358418240474513873345596103990330068356505980922359227597179257209004555347674554633907237796559481719970154960261835308207942827591050491995932767880310757061399030784850993345064974958767140016125183368809189587003194601830014759680842269346169755472841521498468452157495913935499464371714719251392596944018258987496736826687078065955191005064250328477977783125275746123414806659129833756766070138310651294356999849330863517100758835645074942895958652069692428203708208113933046153071853393838198249811120541639694857957945304962320111573 106448996000203767997751342906182721206164918357767040023126252296160220718638803407125922093183922548702271129318888134529864542398966732539799277988266315494246223697074247618062034221640976720082358068556572594856590718848110554972663521766662597656250000000000000000000000000000000000000000000000000000000000000000000000000000000000000000000000000000000000000000000000000000000000000000000000000000000000000000000000000000000000000000000000000000000000000000000000000000000000000000000000000000000000000000000000000000000000000000000000000000000000000000000000000000000000000000000000000000000000000000000000000)
    phase := ProcessPhase.Ponto
    brix := (mkRat 311403473743726287933861527279301866654963489246379954168144161430180239331415731883795113360590455068597798117510900538700320324500823566378881557206585151545318322136564146041378810703849250154468440657416668655090122553616626338455062391392785297254016829927835231268286979578963768574098726532471690764493556715606176186850965134711202892344682925940936597086128790954284194237071194041725214232113538509829092577678771140639914554216560947019299217182780133820708425498801858505395366190816797050018341922632890490544899661355057426543818656680870410400834021974387529503513145938379142036251744167815309300489 5322449800010188399887567145309136060308245917888352001156312614808011035931940170356296104659196127435113556465944406726493227119948336626989963899413315774712311184853712380903101711082048836004117903427828629742829535942405527748633176088333129882812500000000000000000000000000000000000000000000000000000000000000000000000000000000000000000000000000000000000000000000000000000000000000000000000000000000000000000000000000000000000000000000000000000000000000000000000000000000000000000000000000000000000000000000000000000000000000000000000000000000000000000000000000000000000000000000000000000000000000000000000)
    auto := false
    alarms := [Alarm.mk AlarmMsg.systemStarted Severity.info, Alarm.mk AlarmMsg.phaseConcentracao Severity.info, Alarm.mk AlarmMsg.phasePonto Severity.info]
    efficiency := (mkRat 659983775201263361586058326018332871478222493818155648143382764236193368455560581123888501856984656521602586905727729842330073339249276520052820389452325217852726057216839792491441087228372970497846659382698157092328796692419096864655898208477869855064197502415019486108765920117684655389145183793235748032232227580247184923431046233774556361011750738217065410830261515934565566334909579113130013185245230772926456567487566248222634657801437163275139114549637315634923120568413081772121415733595055334340309118043012989126858142431944574468482247989629826312264720268898968053262253689186574416029380802126973949 6812735744013041151856085945995694157194554774897090561480080146954254125992883418056059013963771043116945352276408840609911330713533870882547153791249044191631758316612751847555970190185022510085270916387620646070821806006279075518250465393066406250000000000000000000000000000000000000000000000000000000000000000000000000000000000000000000000000000000000000000000000000000000000000000000000000000000000000000000000000000000000000000000000000000000000000000000000000000000000000000000000000000000000000000000000000000000000000000000000000000000000000000000000000000000000000000000000000000000000000000000000000)
    protectionActive := false
    originalRpm := (40 : Rat)

/-- Checkpoint state `ckP2` of the evaluation trajectory. -/
def ckP2 : CoreState where
    temperature := (mkRat 38170645233227364318041329319691374944227227499504477547355147231441729536255064087943405949533773489239787082904188974157875424808544109112613260463241549812883138289800755156530919263702241855650652429398018288281307919125067633150583143594244320711238128098734833307989597020494392932867810731925236898863148679296403999187975054111718822694026408147685663949392498435841122242174113973349847560538226055064927045756596561385184117734232184052711379850281366481784431491482602002970229225973516791038475818970560760082307206618944282611355637428248006886325836252119676159352475865683336170335910498561203700111801340663552820873427350272881 324856555176403100579075143146309573993423212761740234445575721118653017329830332663348150919140388637397067655392114668365065131832784217955930413782551011640155711966168968560980329045535207275641961879139931014576998043359712387001536626485176384449005126953125000000000000000000000000000000000000000000000000000000000000000000000000000000000000000000000000000000000000000000000000000000000000000000000000000000000000000000000000000000000000000000000000000000000000000000000000000000000000000000000000000000000000000000000000000000000000000000000000000000000000000000000000000000000000000000000000000000000000000000000000000000000000000000)
    setpoint := (130 : Rat)
    rpm := (40 : Rat)
    torque := (mkRat 1249379269586325333618628487285836073169205925188126534102128198163306098854090625570685915979002840138104689993766444131866235656179735805784677377763214616987055304126513993673853993612736187661023055756186891281988165491326219169888403884023625093686144799985306068784131790585325958929100111050308693687790446181503641120616607082890046936889991506234175120583180268718682250369767446458969525292825167269789523170855891821736025635636863067680590964443746344900303581469080426929072049725567898110186953180583574279834041968713975288376326878367195448004721619090770523358965812842166814294699985277668052339621711292623987177143456253074119337 20303534698525193786192196446644348374588950797608764652848482569915813583114395791459259432446274289837316728462007166772816570739549013622245650861409438227509731997885560535061270565345950454727622617446245688411062377709982024187596039155323524028062820434570312500000000000000000000000000000000000000000000000000000000000000000000000000000000000000000000000000000000000000000000000000000000000000000000000000000000000000000000000000000000000000000000000000000000000000000000000000000000000000000000000000000000000000000000000000000000000000000000000000000000000000000000000000000000000000000000000000000000000000000000000000000000000000000000)
    phase := ProcessPhase.Ponto
    brix := (mkRat 61941562241011016929775151382396160105555833818138874242218817418693300439745528761109211968666046446325467680170191010314490665242320786665716802265559801045654610370589858002021445618722239120202156211645641350353781585361944820896736407113256733097978093716368566286653455940225040518130990607759522268498187866824097512138729876741832969164365838291584864249993532481071081001539469568688853181386978898723500979050248950214198266294515340887912294272270972319731137245172412405453748579953573159585364218897897504781720083185097547396182825846501216112875561370032557325026724486288738632170421913140903619984015970110872697625779841679188141 1015176734926259689309609822332217418729447539880438232642424128495790679155719789572962971622313714491865836423100358338640828536977450681112282543070471911375486599894278026753063528267297522736381130872312284420553118885499101209379801957766176201403141021728515625000000000000000000000000000000000000000000000000000000000000000000000000000000000000000000000000000000000000000000000000000000000000000000000000000000000000000000000000000000000000000000000000000000000000000000000000000000000000000000000000000000000000000000000000000000000000000000000000000000000000000000000000000000000000000000000000000000000000000000000000000000000000000000)
    auto := false
    alarms := [Alarm.mk AlarmMsg.systemStarted Severity.info, Alarm.mk AlarmMsg.phaseConcentracao Severity.info, Alarm.mk AlarmMsg.phasePonto Severity.info]
    efficiency := (mkRat 125881915130856201474391617969194959922451494945174340847660591933478044215309253907047406697701678421336995349860059934616443010403395847960714472184530322955725180520666376667995608105996747820073982136765799662217097390832189977640998032745241944512469512376078583307989597020494392932867810731925236898863148679296403999187975054111718822694026408147685663949392498435841122242174113973349847560538226055064927045756596561385184117734232184052711379850281366481784431491482602002970229225973516791038475818970560760082307206618944282611355637428248006886325836252119676159352475865683336170335910498561203700111801340663552820873427350272881 1299426220705612402316300572585238295973692851046960937782302884474612069319321330653392603676561554549588270621568458673460260527331136871823721655130204046560622847864675874243921316182140829102567847516559724058307992173438849548006146505940705537796020507812500000000000000000000000000000000000000000000000000000000000000000000000000000000000000000000000000000000000000000000000000000000000000000000000000000000000000000000000000000000000000000000000000000000000000000000000000000000000000000000000000000000000000000000000000000000000000000000000000000000000000000000000000000000000000000000000000000000000000000000000000000000000000000000)
    protectionActive := false
    originalRpm := (40 : Rat)

/-- Checkpoint state `ckU1` of the evaluation trajectory. -/
def ckU1 : CoreState where
    temperature := (mkRat 1908532261661368215902066465984568747211361374975223877367757361572086476812753204397170334929458340150731089843901523194769185532245174222072042849442449565795695229680743829463615620567223137766515461389320310138626672326617051676293202790085258029253825865620146103431698313594337395053166511225831870067031311699595715976451276569239845858126765836282884254532382454639392545023049305227145579255608555596882884326941300280170339414292733337528630015658159627971748513252995458086136647553231986940115798750146262042386908991949384195729313485419192199703449251311470608621221800104816748939741404458274907303242238879243031805329393157913549 16242827758820155028953757157315478699671160638087011722278786055932650866491516633167407545957019431869853382769605733418253256591639210897796520689127550582007785598308448428049016452276760363782098093956996550728849902167985619350076831324258819222450256347656250000000000000000000000000000000000000000000000000000000000000000000000000000000000000000000000000000000000000000000000000000000000000000000000000000000000000000000000000000000000000000000000000000000000000000000000000000000000000000000000000000000000000000000000000000000000000000000000000000000000000000000000000000000000000000000000000000000000000000000000000000000000000000000)
    setpoint := (130 : Rat)
    rpm := (70 : Rat)
    torque := (mkRat 18303693450605060097029126531889314163222974896403728184637180006496281617433833475458116343191781564744123266562249212309718794386107326138061243703203727553796687860094270399183011778111139758585762976291172369214888878234621806419730791229971801036060435421139291169312669363585001669263517626072581671972429339209369380390290566569237482830165346812262914615563707930012386664457437798348961316127350713969024817640689078154014651305792251703686721077309993021996891940727889278640354570098173328958860069963927732769830981001720030441093703690876255492323268065018342271992407872732069467030102257005212631537064266510363618797268230921744221897 203035346985251937861921964466443483745889507976087646528484825699158135831143957914592594324462742898373167284620071667728165707395490136222456508614094382275097319978855605350612705653459504547276226174462456884110623777099820241875960391553235240280628204345703125000000000000000000000000000000000000000000000000000000000000000000000000000000000000000000000000000000000000000000000000000000000000000000000000000000000000000000000000000000000000000000000000000000000000000000000000000000000000000000000000000000000000000000000000000000000000000000000000000000000000000000000000000000000000000000000000000000000000000000000000000000000000000000000)
    phase := ProcessPhase.Ponto
    brix := (mkRat 3103778278501064160438200993947200640241406044670154604446380870182737240469704188666642153477084186957885955019955214225458931437170093744138571646415424752994316314729469647608488918284347861405411234334882433964572584749782201268247977974788426732304940544754312421470421478460789737252134362011460263995646737769900428482677457879353286762657686338778354939299532831054587368072227020791941260441160639047740760680108801813791787048282987111108429643785788371894246095904403570311634932120764209835609484731146484121552260158166320595962163740664671919840516010266054042946169664115589915846858251106086204979536463133215308231147615408696456089 50758836746312984465480491116610870936472376994021911632121206424789533957785989478648148581115685724593291821155017916932041426848872534055614127153523595568774329994713901337653176413364876136819056543615614221027655944274955060468990097888308810070157051086425781250000000000000000000000000000000000000000000000000000000000000000000000000000000000000000000000000000000000000000000000000000000000000000000000000000000000000000000000000000000000000000000000000000000000000000000000000000000000000000000000000000000000000000000000000000000000000000000000000000000000000000000000000000000000000000000000000000000000000000000000000000000000000000000)
    auto := false
    alarms := [Alarm.mk AlarmMsg.systemStarted Severity.info, Alarm.mk AlarmMsg.phaseConcentracao Severity.info, Alarm.mk AlarmMsg.phasePonto Severity.info, Alarm.mk AlarmMsg.protectionActivated Severity.warning, Alarm.mk AlarmMsg.highTorque Severity.warning]
    efficiency := (mkRat 2201022943426422051537290116639109628041403978358346786886071692380289207212469260085681077040128790717119195460175452332979919030374204799840778152735356090611464303692406982138270140005838683457230150160458248796829559988534995718173703155393353530843803818739359542676423483299662836284703465188517865248380438731483404004514959088704629434560099553265137334981248405091964379842448910060733577380803252783904274485125310652689707420484067497011280965202719476926852770398465190984852806688209578778625225141284917014078513699765224396320050118882340016468751355666250422493613781574435359175823703990862056723195966248408856949298265337091952341 25379418373156492232740245558305435468236188497010955816060603212394766978892994739324074290557842862296645910577508958466020713424436267027807063576761797784387164997356950668826588206682438068409528271807807110513827972137477530234495048944154405035078525543212890625000000000000000000000000000000000000000000000000000000000000000000000000000000000000000000000000000000000000000000000000000000000000000000000000000000000000000000000000000000000000000000000000000000000000000000000000000000000000000000000000000000000000000000000000000000000000000000000000000000000000000000000000000000000000000000000000000000000000000000000000000000000000000000)
    protectionActive := true
    originalRpm := (100 : Rat)

/-- `ckA` switched to manual mode with setpoint 130. -/
def ckAManual : CoreState := { ckA1 with auto := false, setpoint := 130 }

/-- The last B checkpoint switched back to automatic mode. -/
def ckBAuto : CoreState := { ckB14 with auto := true }

/-- `ckC` switched to manual mode with setpoint 130. -/
def ckCManual : CoreState := { ckC with auto := false, setpoint := 130 }

/-- The last Q checkpoint after commanding rpm 100. -/
def ckQRpm : CoreState := { ckQ10 with rpm := 100, originalRpm := 100 }

/-- `ckT2` switched back to automatic mode. -/
def ckT2Auto : CoreState := { ckT2 with auto := true }

/-- The last P checkpoint after commanding rpm 100. -/
def ckPRpm : CoreState := { ckP2 with rpm := 100, originalRpm := 100 }


/-- Splitting an iterated loop body. -/
theorem stepCoreN_add (m n : ℕ) (c : CoreState) :
    stepCoreN (m + n) c = stepCoreN n (stepCoreN m c) := by
  induction m generalizing c with
  | zero =>
    rw [Nat.zero_add]
    rfl
  | succ k ih =>
    have h : k + 1 + n = (k + n) + 1 := by omega
    rw [h]
    exact ih (stepCore c)

/-- A tick does not change the running flag. -/
theorem step_running (s : PanState) : (step s).running = s.running := by
  unfold step
  split <;> rfl

/-- Iterated ticks do not change the running flag. -/
theorem stepN_running (n : ℕ) (s : PanState) : (stepN n s).running = s.running := by
  induction n generalizing s with
  | zero => rfl
  | succ k ih => rw [stepN, ih, step_running]

/-- The auto-mode toggle does not change the running flag. -/
theorem setAuto_running (b : Bool) (s : PanState) : (setAutoCmd b s).running = s.running := rfl

/-- The setpoint slider does not change the running flag. -/
theorem setSetpoint_running (v : ℚ) (s : PanState) :
    (setSetpointCmd v s).running = s.running := by
  unfold setSetpointCmd
  split <;> rfl

/-- The rpm slider does not change the running flag. -/
theorem setRpm_running (v : ℚ) (s : PanState) : (setRpmCmd v s).running = s.running := by
  unfold setRpmCmd
  split <;> rfl

/-- On a running state the tick acts on the history-free part as `stepCore`. -/
theorem core_step (s : PanState) (h : s.running = true) :
    core (step s) = stepCore (core s) := by
  unfold step
  rw [h]
  rfl

/-- Iterated version of `core_step`. -/
theorem core_stepN (n : ℕ) (s : PanState) (h : s.running = true) :
    core (stepN n s) = stepCoreN n (core s) := by
  induction n generalizing s with
  | zero => rfl
  | succ k ih =>
    show core (stepN k (step s)) = stepCoreN k (stepCore (core s))
    rw [ih (step s) (by rw [step_running, h]), core_step s h]

/-- The auto-mode toggle on the history-free part. -/
theorem core_setAuto (b : Bool) (s : PanState) :
    core (setAutoCmd b s) = { core s with auto := b } := rfl

/-- The setpoint slider on the history-free part (manual mode). -/
theorem core_setSetpoint (v : ℚ) (s : PanState) (h : s.auto = false) :
    core (setSetpointCmd v s) = { core s with setpoint := v } := by
  unfold setSetpointCmd
  rw [if_neg (by simp [h])]
  rfl

/-- The rpm slider on the history-free part (protection inactive). -/
theorem core_setRpm (v : ℚ) (s : PanState) (h : s.protectionActive = false) :
    core (setRpmCmd v s) = { core s with rpm := v, originalRpm := v } := by
  unfold setRpmCmd
  rw [if_neg (by simp [h])]
  rfl

/-- Projection compatibility of `core`. -/
theorem core_protectionActive (s : PanState) : (core s).protectionActive = s.protectionActive := rfl

/-- Projection compatibility of `core`. -/
theorem core_temperature (s : PanState) : (core s).temperature = s.temperature := rfl

/-- Projection compatibility of `core`. -/
theorem core_setpoint (s : PanState) : (core s).setpoint = s.setpoint := rfl

/-- Projection compatibility of `core`. -/
theorem core_rpm (s : PanState) : (core s).rpm = s.rpm := rfl

/-- Projection compatibility of `core`. -/
theorem core_torque (s : PanState) : (core s).torque = s.torque := rfl

/-- Projection compatibility of `core`. -/
theorem core_phase (s : PanState) : (core s).phase = s.phase := rfl

/-- Projection compatibility of `core`. -/
theorem core_brix (s : PanState) : (core s).brix = s.brix := rfl

/-- Projection compatibility of `core`. -/
theorem core_auto (s : PanState) : (core s).auto = s.auto := rfl

/-- Projection compatibility of `core`. -/
theorem core_alarms (s : PanState) : (core s).alarms = s.alarms := rfl

/-- Projection compatibility of `core`. -/
theorem core_originalRpm (s : PanState) : (core s).originalRpm = s.originalRpm := rfl

/-- Iterated ticks preserve reachability. -/
theorem reach_stepN (n : ℕ) {s : PanState} (h : Reachable s) : Reachable (stepN n s) := by
  induction n generalizing s with
  | zero => exact h
  | succ k ih => exact ih (Reachable.tick h)


set_option maxRecDepth 400000 in
theorem evA1 : stepCoreN 7 (core (handleStart initState)) = ckA1 := by decide

theorem evA : stepCoreN 7 (core (handleStart initState)) = ckA1 := evA1

set_option maxRecDepth 400000 in
theorem evB1 : stepCoreN 25 ckAManual = ckB1 := by decide

set_option maxRecDepth 400000 in
theorem evB2 : stepCoreN 25 ckB1 = ckB2 := by decide

set_option maxRecDepth 400000 in
theorem evB3 : stepCoreN 25 ckB2 = ckB3 := by decide

set_option maxRecDepth 400000 in
theorem evB4 : stepCoreN 25 ckB3 = ckB4 := by decide

set_option maxRecDepth 400000 in
theorem evB5 : stepCoreN 25 ckB4 = ckB5 := by decide

set_option maxRecDepth 400000 in
theorem evB6 : stepCoreN 25 ckB5 = ckB6 := by decide

set_option maxRecDepth 400000 in
theorem evB7 : stepCoreN 25 ckB6 = ckB7 := by decide

set_option maxRecDepth 400000 in
theorem evB8 : stepCoreN 25 ckB7 = ckB8 := by decide

set_option maxRecDepth 400000 in
theorem evB9 : stepCoreN 25 ckB8 = ckB9 := by decide

set_option maxRecDepth 400000 in
theorem evB10 : stepCoreN 25 ckB9 = ckB10 := by decide

set_option maxRecDepth 400000 in
theorem evB11 : stepCoreN 25 ckB10 = ckB11 := by decide

set_option maxRecDepth 400000 in
theorem evB12 : stepCoreN 25 ckB11 = ckB12 := by decide

set_option maxRecDepth 400000 in
theorem evB13 : stepCoreN 25 ckB12 = ckB13 := by decide

set_option maxRecDepth 400000 in
theorem evB14 : stepCoreN 1 ckB13 = ckB14 := by decide

theorem evB : stepCoreN 326 ckAManual = ckB14 := by
  rw [show (326 : Nat) = 25 + 301 from rfl, stepCoreN_add, evB1,
      show (301 : Nat) = 25 + 276 from rfl, stepCoreN_add, evB2,
      show (276 : Nat) = 25 + 251 from rfl, stepCoreN_add, evB3,
      show (251 : Nat) = 25 + 226 from rfl, stepCoreN_add, evB4,
      show (226 : Nat) = 25 + 201 from rfl, stepCoreN_add, evB5,
      show (201 : Nat) = 25 + 176 from rfl, stepCoreN_add, evB6,
      show (176 : Nat) = 25 + 151 from rfl, stepCoreN_add, evB7,
      show (151 : Nat) = 25 + 126 from rfl, stepCoreN_add, evB8,
      show (126 : Nat) = 25 + 101 from rfl, stepCoreN_add, evB9,
      show (101 : Nat) = 25 + 76 from rfl, stepCoreN_add, evB10,
      show (76 : Nat) = 25 + 51 from rfl, stepCoreN_add, evB11,
      show (51 : Nat) = 25 + 26 from rfl, stepCoreN_add, evB12,
      show (26 : Nat) = 25 + 1 from rfl, stepCoreN_add, evB13]
  exact evB14

set_option maxRecDepth 400000 in
theorem evC : stepCore ckBAuto = ckC := by decide

set_option maxRecDepth 400000 in
theorem evQ1 : stepCoreN 25 ckCManual = ckQ1 := by decide

set_option maxRecDepth 400000 in
theorem evQ2 : stepCoreN 25 ckQ1 = ckQ2 := by decide

set_option maxRecDepth 400000 in
theorem evQ3 : stepCoreN 25 ckQ2 = ckQ3 := by decide

set_option maxRecDepth 400000 in
theorem evQ4 : stepCoreN 25 ckQ3 = ckQ4 := by decide

set_option maxRecDepth 400000 in
theorem evQ5 : stepCoreN 25 ckQ4 = ckQ5 := by decide

set_option maxRecDepth 400000 in
theorem evQ6 : stepCoreN 25 ckQ5 = ckQ6 := by decide

set_option maxRecDepth 400000 in
theorem evQ7 : stepCoreN 25 ckQ6 = ckQ7 := by decide

set_option maxRecDepth 400000 in
theorem evQ8 : stepCoreN 25 ckQ7 = ckQ8 := by decide

set_option maxRecDepth 400000 in
theorem evQ9 : stepCoreN 25 ckQ8 = ckQ9 := by decide

set_option maxRecDepth 400000 in
theorem evQ10 : stepCoreN 1 ckQ9 = ckQ10 := by decide

theorem evQ : stepCoreN 226 ckCManual = ckQ10 := by
  rw [show (226 : Nat) = 25 + 201 from rfl, stepCoreN_add, evQ1,
      show (201 : Nat) = 25 + 176 from rfl, stepCoreN_add, evQ2,
      show (176 : Nat) = 25 + 151 from rfl, stepCoreN_add, evQ3,
      show (151 : Nat) = 25 + 126 from rfl, stepCoreN_add, evQ4,
      show (126 : Nat) = 25 + 101 from rfl, stepCoreN_add, evQ5,
      show (101 : Nat) = 25 + 76 from rfl, stepCoreN_add, evQ6,
      show (76 : Nat) = 25 + 51 from rfl, stepCoreN_add, evQ7,
      show (51 : Nat) = 25 + 26 from rfl, stepCoreN_add, evQ8,
      show (26 : Nat) = 25 + 1 from rfl, stepCoreN_add, evQ9]
  exact evQ10

set_option maxRecDepth 400000 in
theorem evT1 : stepCore ckQRpm = ckT1 := by decide

set_option maxRecDepth 400000 in
theorem evT2 : stepCore ckT1 = ckT2 := by decide

set_option maxRecDepth 400000 in
theorem evT3 : stepCore ckT2Auto = ckT3 := by decide

set_option maxRecDepth 400000 in
theorem evP1 : stepCoreN 25 ckCManual = ckP1 := by decide

set_option maxRecDepth 400000 in
theorem evP2 : stepCoreN 19 ckP1 = ckP2 := by decide

theorem evP : stepCoreN 44 ckCManual = ckP2 := by
  rw [show (44 : Nat) = 25 + 19 from rfl, stepCoreN_add, evP1]
  exact evP2

set_option maxRecDepth 400000 in
theorem evU1 : stepCore ckPRpm = ckU1 := by decide

/-- The history-free part after the first seven ticks. -/
theorem coreS7 : core (stepN 7 trajS1) = ckA1 := by
  rw [core_stepN 7 trajS1 rfl]
  exact evA1

/-- The history-free part of `trajS2`. -/
theorem coreS2 : core trajS2 = ckAManual := by
  show core (setSetpointCmd 130 (setAutoCmd false (stepN 7 trajS1))) = ckAManual
  rw [core_setSetpoint _ _ rfl, core_setAuto, coreS7]
  rfl

/-- `trajS2` is running. -/
theorem trajS2_running : trajS2.running = true := by
  show (setSetpointCmd 130 (setAutoCmd false (stepN 7 trajS1))).running = true
  rw [setSetpoint_running, setAuto_running, stepN_running]
  rfl

/-- The history-free part of `trajSB`. -/
theorem coreSB : core trajSB = ckB14 := by
  show core (stepN 326 trajS2) = ckB14
  rw [core_stepN _ _ trajS2_running, coreS2]
  exact evB

/-- `trajSB` is running. -/
theorem trajSB_running : trajSB.running = true := by
  show (stepN 326 trajS2).running = true
  rw [stepN_running]
  exact trajS2_running

/-- The history-free part of `trajS3`. -/
theorem coreS3 : core trajS3 = ckBAuto := by
  show core (setAutoCmd true trajSB) = ckBAuto
  rw [core_setAuto, coreSB]
  rfl

/-- `trajS3` is running. -/
theorem trajS3_running : trajS3.running = true := by
  show (setAutoCmd true trajSB).running = true
  rw [setAuto_running]
  exact trajSB_running

/-- The tick out of `trajS3` advances the phase to Ponto. -/
theorem coreStepS3 : core (step trajS3) = ckC := by
  rw [core_step _ trajS3_running, coreS3]
  exact evC

/-- The history-free part of `trajS4`. -/
theorem coreS4 : core trajS4 = ckCManual := by
  show core (setSetpointCmd 130 (setAutoCmd false (step trajS3))) = ckCManual
  rw [core_setSetpoint _ _ rfl, core_setAuto, coreStepS3]
  rfl

/-- `trajS4` is running. -/
theorem trajS4_running : trajS4.running = true := by
  show (setSetpointCmd 130 (setAutoCmd false (step trajS3))).running = true
  rw [setSetpoint_running, setAuto_running, step_running]
  exact trajS3_running

/-- The history-free part of `trajSD`. -/
theorem coreSD : core trajSD = ckQ10 := by
  show core (stepN 226 trajS4) = ckQ10
  rw [core_stepN _ _ trajS4_running, coreS4]
  exact evQ

/-- `trajSD` is running. -/
theorem trajSD_running : trajSD.running = true := by
  show (stepN 226 trajS4).running = true
  rw [stepN_running]
  exact trajS4_running

/-- Protection is still inactive at `trajSD`. -/
theorem trajSD_protect : trajSD.protectionActive = false := by
  rw [← core_protectionActive, coreSD]
  rfl

/-- The history-free part of `trajT1`. -/
theorem coreT1 : core trajT1 = ckT1 := by
  show core (step (setRpmCmd 100 trajSD)) = ckT1
  rw [core_step _ (by rw [setRpm_running]; exact trajSD_running),
    core_setRpm _ _ trajSD_protect, coreSD]
  exact evT1

/-- `trajT1` is running. -/
theorem trajT1_running : trajT1.running = true := by
  show (step (setRpmCmd 100 trajSD)).running = true
  rw [step_running, setRpm_running]
  exact trajSD_running

/-- The history-free part of the tick after `trajT1`. -/
theorem coreT2 : core (step trajT1) = ckT2 := by
  rw [core_step _ trajT1_running, coreT1]
  exact evT2

/-- The history-free part of `trajQ2`. -/
theorem coreQ2 : core trajQ2 = ckT2Auto := by
  show core (setAutoCmd true (step trajT1)) = ckT2Auto
  rw [core_setAuto, coreT2]
  rfl

/-- `trajQ2` is running. -/
theorem trajQ2_running : trajQ2.running = true := by
  show (setAutoCmd true (step trajT1)).running = true
  rw [setAuto_running, step_running]
  exact trajT1_running

/-- The history-free part of the tick after `trajQ2`: Ponto to Finalizado. -/
theorem coreT3 : core (step trajQ2) = ckT3 := by
  rw [core_step _ trajQ2_running, coreQ2]
  exact evT3

/-- The history-free part of the P branch endpoint. -/
theorem coreSE : core (stepN 44 trajS4) = ckP2 := by
  rw [core_stepN _ _ trajS4_running, coreS4]
  exact evP

/-- Protection is still inactive on the P branch endpoint. -/
theorem sE_protect : (stepN 44 trajS4).protectionActive = false := by
  rw [← core_protectionActive, coreSE]
  rfl

/-- The history-free part of `trajP0`. -/
theorem coreP0 : core trajP0 = ckPRpm := by
  show core (setRpmCmd 100 (stepN 44 trajS4)) = ckPRpm
  rw [core_setRpm _ _ sE_protect, coreSE]
  rfl

/-- `trajP0` is running. -/
theorem trajP0_running : trajP0.running = true := by
  show (setRpmCmd 100 (stepN 44 trajS4)).running = true
  rw [setRpm_running, stepN_running]
  exact trajS4_running

/-- The history-free part of `trajU1` (the activation tick committed). -/
theorem coreU1 : core trajU1 = ckU1 := by
  show core (step trajP0) = ckU1
  rw [core_step _ trajP0_running, coreP0]
  exact evU1

/-- `trajS1` is reachable. -/
theorem reach_trajS1 : Reachable trajS1 := Reachable.start Reachable.init

/-- `trajS2` is reachable. -/
theorem reach_trajS2 : Reachable trajS2 :=
  Reachable.setpoint (Reachable.auto false (reach_stepN 7 reach_trajS1))
    (by norm_num) (by norm_num)

/-- `trajS4` is reachable. -/
theorem reach_trajS4 : Reachable trajS4 :=
  Reachable.setpoint
    (Reachable.auto false (Reachable.tick (Reachable.auto true (reach_stepN 326 reach_trajS2))))
    (by norm_num) (by norm_num)

/-- `trajT1` is reachable. -/
theorem reach_trajT1 : Reachable trajT1 :=
  Reachable.tick (Reachable.rpm (reach_stepN 226 reach_trajS4) (by norm_num) (by norm_num))

/-- `trajQ2` is reachable. -/
theorem reach_trajQ2 : Reachable trajQ2 :=
  Reachable.auto true (Reachable.tick reach_trajT1)

/-- `trajP0` is reachable. -/
theorem reach_trajP0 : Reachable trajP0 :=
  Reachable.rpm (reach_stepN 44 reach_trajS4) (by norm_num) (by norm_num)

/-- `trajU1` is reachable. -/
theorem reach_trajU1 : Reachable trajU1 := Reachable.tick reach_trajP0


/-- Field splitter for `stepCore`: temperature. -/
theorem stepCore_temperature (c : CoreState) :
    (stepCore c).temperature = tempStep c.protectionActive c.temperature c.setpoint := rfl

/-- Field splitter for `stepCore`: brix. -/
theorem stepCore_brix (c : CoreState) :
    (stepCore c).brix = brixStep c.phase c.brix (tempStep c.protectionActive c.temperature c.setpoint) := rfl

/-- Field splitter for `stepCore`: auto mode is untouched by a tick. -/
theorem stepCore_auto (c : CoreState) : (stepCore c).auto = c.auto := rfl

/-- Field splitter for `stepCore`: torque. -/
theorem stepCore_torque (c : CoreState) : (stepCore c).torque = (protOf c).torque := rfl

/-- Field splitter for `stepCore`: rpm. -/
theorem stepCore_rpm (c : CoreState) : (stepCore c).rpm = (protOf c).rpm := rfl

/-- Field splitter for `stepCore`: protection flag. -/
theorem stepCore_active (c : CoreState) :
    (stepCore c).protectionActive = (protOf c).active := rfl

/-- Field splitter for `stepCore`: saved rpm. -/
theorem stepCore_originalRpm (c : CoreState) :
    (stepCore c).originalRpm = (protOf c).originalRpm := rfl

/-- Field splitter for `stepCore`: setpoint. -/
theorem stepCore_setpoint (c : CoreState) : (stepCore c).setpoint = (transOf c).2.1 := rfl

/-- Field splitter for `stepCore`: phase. -/
theorem stepCore_phase (c : CoreState) : (stepCore c).phase = (transOf c).1 := rfl

/-- Field splitter for `stepCore`: alarms. -/
theorem stepCore_alarms (c : CoreState) :
    (stepCore c).alarms = alarmChecks c.setpoint c.temperature c.torque
      (tempStep c.protectionActive c.temperature c.setpoint)
      (protOf c).torque c.protectionActive (transOf c).2.2 := rfl

/-- The committed temperature of a tick lies in `[AMBIENT, setpoint + 10]`
whenever the setpoint is at least 15. -/
theorem tempStep_bounds (active : Bool) (temperature setpoint : ℚ) (h : 15 ≤ setpoint) :
    AMBIENT ≤ tempStep active temperature setpoint ∧
      tempStep active temperature setpoint ≤ setpoint + 10 := by
  unfold tempStep AMBIENT at *
  constructor
  · exact le_min (by linarith) (le_max_left _ _)
  · exact min_le_left _ _

/-- The evaporation factor is nonnegative. -/
theorem evapFactorOf_nonneg (t : ℚ) : 0 ≤ evapFactorOf t := le_max_left _ _

/-- The phase factor is positive. -/
theorem phaseFactorOf_pos (ph : ProcessPhase) : 0 < phaseFactorOf ph := by
  cases ph <;> norm_num [phaseFactorOf]

/-- A tick never takes brix above the cap. -/
theorem brixStep_le (ph : ProcessPhase) (b t : ℚ) : brixStep ph b t ≤ 85 := min_le_left _ _

/-- A tick never decreases brix (below the cap). -/
theorem brixStep_ge (ph : ProcessPhase) (b t : ℚ) (hb : b ≤ 85) : b ≤ brixStep ph b t := by
  unfold brixStep MAX_BRIX
  have h1 : 0 ≤ BRIX_K * evapFactorOf t * phaseFactorOf ph := by
    have := evapFactorOf_nonneg t
    have := (phaseFactorOf_pos ph).le
    have : (0:ℚ) ≤ BRIX_K := by norm_num [BRIX_K]
    positivity
  exact le_min hb (by linarith)

/-- The viscosity clamp stays in `[0, 1]`. -/
theorem viscOf_bounds (b : ℚ) : 0 ≤ viscOf b ∧ viscOf b ≤ 1 := by
  unfold viscOf
  exact ⟨le_max_left _ _, max_le (by norm_num) (min_le_left _ _)⟩

/-- The torque formula is bounded by 100. -/
theorem torqueFormula_le (ph : ProcessPhase) (v r : ℚ) : torqueFormula ph v r ≤ 100 := by
  unfold torqueFormula
  exact min_le_left _ _

/-- The torque formula is nonnegative. -/
theorem torqueFormula_nonneg (ph : ProcessPhase) (v r : ℚ) : 0 ≤ torqueFormula ph v r := by
  unfold torqueFormula
  exact le_min (by norm_num) (le_max_left _ _)

/-- A torque of at least 90 forces an rpm of at least 50: with viscosity at
most one the formula is bounded by `60 + 0.6·rpm`. -/
theorem torqueFormula_ge90 (ph : ProcessPhase) (v r : ℚ) (hv0 : 0 ≤ v) (hv1 : v ≤ 1)
    (hr0 : 0 ≤ r) (h : 90 ≤ torqueFormula ph v r) : 50 ≤ r := by
  unfold torqueFormula at h
  have h2 : (90:ℚ) ≤ max 0 (if ph = ProcessPhase.Ponto then
      5 + 50 * v + 20 * (r / 100) + 40 * v * (r / 100) + 5 * v
    else 5 + 50 * v + 20 * (r / 100) + 40 * v * (r / 100)) := le_trans h (min_le_right _ _)
  have h3 := (le_max_iff.mp h2).resolve_left (by norm_num)
  split_ifs at h3 with hph
  · nlinarith [mul_nonneg (sub_nonneg.mpr hv1) hr0]
  · nlinarith [mul_nonneg (sub_nonneg.mpr hv1) hr0]

/-- Appending to the alarm log keeps it within five entries. -/
theorem addAlarm_length (msg : AlarmMsg) (sev : Severity) (l : List Alarm) :
    (addAlarm msg sev l).length ≤ 5 := by
  simp [addAlarm]
  omega

/-- Appending to the history keeps it within one hundred samples. -/
theorem pushHistory_length (p : HistoryPoint) (h : List HistoryPoint) :
    (pushHistory p h).length ≤ 100 := by
  simp [pushHistory]
  omega

/-- At capacity five, the alarm append drops exactly the oldest entry. -/
theorem addAlarm_evict (msg : AlarmMsg) (sev : Severity) (l : List Alarm) (h : l.length = 5) :
    addAlarm msg sev l = l.tail ++ [⟨msg, sev⟩] := by
  simp [addAlarm, h, List.drop_one]

/-- At capacity one hundred, the history append drops exactly the oldest sample. -/
theorem pushHistory_evict (p : HistoryPoint) (l : List HistoryPoint) (h : l.length = 100) :
    pushHistory p l = l.tail ++ [p] := by
  simp [pushHistory, h, List.drop_one]


/-- The motor-protection block preserves the rpm bounds, the saved-rpm
bounds, and the protection relation (the adjusted rpm stays strictly below
the saved rpm while protection is active, and the saved rpm is at least 50). -/
theorem motorProtection_inv (ph : ProcessPhase) (visc nextTorque rpm : ℚ) (active : Bool)
    (originalRpm : ℚ) (alarms : List Alarm)
    (hr : 10 ≤ rpm) (hr2 : rpm ≤ 100) (ho : 10 ≤ originalRpm) (ho2 : originalRpm ≤ 100)
    (hact : active = true → rpm < originalRpm ∧ 50 ≤ originalRpm)
    (h90 : 90 ≤ nextTorque → 50 ≤ rpm) :
    10 ≤ (motorProtection ph visc nextTorque rpm active originalRpm alarms).rpm ∧
    (motorProtection ph visc nextTorque rpm active originalRpm alarms).rpm ≤ 100 ∧
    10 ≤ (motorProtection ph visc nextTorque rpm active originalRpm alarms).originalRpm ∧
    (motorProtection ph visc nextTorque rpm active originalRpm alarms).originalRpm ≤ 100 ∧
    ((motorProtection ph visc nextTorque rpm active originalRpm alarms).active = true →
      (motorProtection ph visc nextTorque rpm active originalRpm alarms).rpm <
        (motorProtection ph visc nextTorque rpm active originalRpm alarms).originalRpm ∧
      50 ≤ (motorProtection ph visc nextTorque rpm active originalRpm alarms).originalRpm) := by
  unfold motorProtection
  split_ifs with hA hB hC hD hE
  all_goals dsimp only
  · have h50 : 50 ≤ rpm := h90 hA.1
    exact ⟨le_max_left _ _, max_le (by norm_num) (by linarith), hr, hr2,
      fun _ => ⟨max_lt (by linarith) (by linarith), h50⟩⟩
  · obtain ⟨hlt, h50⟩ := hact hB
    exact ⟨le_max_left _ _, max_le (by norm_num) (by linarith), ho, ho2,
      fun _ => ⟨max_lt (by linarith) (by linarith), h50⟩⟩
  · obtain ⟨hlt, h50⟩ := hact hB
    split_ifs with hF
    all_goals dsimp only
    · exact ⟨le_min ho (by linarith), le_trans (min_le_left _ _) ho2, ho, ho2,
        fun hfalse => absurd hfalse (by simp)⟩
    · push_neg at hF
      exact ⟨le_min ho (by linarith), le_trans (min_le_left _ _) ho2, ho, ho2,
        fun _ => ⟨hF, h50⟩⟩
  · exact absurd (hact hB).1 hE
  · obtain ⟨hlt, h50⟩ := hact hB
    exact ⟨hr, hr2, ho, ho2, fun _ => ⟨hlt, h50⟩⟩
  · exact ⟨hr, hr2, ho, ho2, hact⟩

/-- The motor-protection block keeps the alarm log within five entries. -/
theorem motorProtection_alarms (ph : ProcessPhase) (visc nextTorque rpm : ℚ) (active : Bool)
    (originalRpm : ℚ) (alarms : List Alarm) (h : alarms.length ≤ 5) :
    (motorProtection ph visc nextTorque rpm active originalRpm alarms).alarms.length ≤ 5 := by
  unfold motorProtection
  split_ifs <;> (try dsimp only) <;> (try split_ifs) <;> (try dsimp only) <;>
    first
    | exact addAlarm_length _ _ _
    | exact h

/-- The phase-transition chain keeps the alarm log within five entries. -/
theorem phaseTransition_alarms (auto : Bool) (ph : ProcessPhase) (sp t b tq : ℚ)
    (alarms : List Alarm) (h : alarms.length ≤ 5) :
    (phaseTransition auto ph sp t b tq alarms).2.2.length ≤ 5 := by
  unfold phaseTransition
  split_ifs <;> (try dsimp only) <;>
    first
    | exact addAlarm_length _ _ _
    | exact h

/-- The end-of-tick alarm checks keep the alarm log within five entries. -/
theorem alarmChecks_length (sp T tq nT nt : ℚ) (active : Bool) (alarms : List Alarm)
    (h : alarms.length ≤ 5) :
    (alarmChecks sp T tq nT nt active alarms).length ≤ 5 := by
  unfold alarmChecks
  split_ifs <;> (try dsimp only) <;>
    first
    | exact addAlarm_length _ _ _
    | exact h

/-- The committed setpoint of a tick is the previous setpoint or one of the
configured phase setpoints 115, 118 and 60. -/
theorem phaseTransition_setpointMem (auto : Bool) (ph : ProcessPhase) (sp t b tq : ℚ)
    (alarms : List Alarm) :
    (phaseTransition auto ph sp t b tq alarms).2.1 = sp ∨
    (phaseTransition auto ph sp t b tq alarms).2.1 = 115 ∨
    (phaseTransition auto ph sp t b tq alarms).2.1 = 118 ∨
    (phaseTransition auto ph sp t b tq alarms).2.1 = 60 := by
  unfold phaseTransition
  split_ifs <;> simp [phaseSetpoint]

/-- The committed phase of a tick is the previous phase or its immediate
successor. -/
theorem phaseTransition_phaseCases (auto : Bool) (ph : ProcessPhase) (sp t b tq : ℚ)
    (alarms : List Alarm) :
    (phaseTransition auto ph sp t b tq alarms).1 = ph ∨
    (phaseTransition auto ph sp t b tq alarms).1 = phaseSucc ph := by
  unfold phaseTransition
  split_ifs with hauto h1 h2 h3
  · right
    rw [h1.1]
    rfl
  · right
    rw [h2.1]
    rfl
  · right
    rw [h3.1]
    rfl
  · left
    rfl
  · left
    rfl

/-- Finalizado admits no automatic transition. -/
theorem phaseTransition_terminal (auto : Bool) (ph : ProcessPhase) (sp t b tq : ℚ)
    (alarms : List Alarm) (hph : ph = ProcessPhase.Finalizado) :
    (phaseTransition auto ph sp t b tq alarms).1 = ph := by
  unfold phaseTransition
  split_ifs with h1 h2 h3 <;> simp_all

/-- A tick preserves the history-free invariant. -/
theorem stepCore_inv (c : CoreState) (h : CoreInv c) : CoreInv (stepCore c) := by
  obtain ⟨h1, h2, h3, h4, h5, h6, h7, h8, h9, h10⟩ := h
  have hv := viscOf_bounds
    (brixStep c.phase c.brix (tempStep c.protectionActive c.temperature c.setpoint))
  have hmp := motorProtection_inv c.phase
    (viscOf (brixStep c.phase c.brix (tempStep c.protectionActive c.temperature c.setpoint)))
    (torqueFormula c.phase
      (viscOf (brixStep c.phase c.brix (tempStep c.protectionActive c.temperature c.setpoint)))
      c.rpm)
    c.rpm c.protectionActive c.originalRpm c.alarms h1 h2 h3 h4 h9
    (fun h90 => torqueFormula_ge90 _ _ _ hv.1 hv.2 (by linarith) h90)
  have hsp := phaseTransition_setpointMem c.auto c.phase c.setpoint
    (tempStep c.protectionActive c.temperature c.setpoint)
    (brixStep c.phase c.brix (tempStep c.protectionActive c.temperature c.setpoint))
    (protOf c).torque (protOf c).alarms
  have hal : (protOf c).alarms.length ≤ 5 := by
    unfold protOf
    exact motorProtection_alarms _ _ _ _ _ _ _ h10
  refine ⟨?_, ?_, ?_, ?_, ?_, ?_, ?_, ?_, ?_, ?_⟩
  · rw [stepCore_rpm]
    exact hmp.1
  · rw [stepCore_rpm]
    exact hmp.2.1
  · rw [stepCore_originalRpm]
    exact hmp.2.2.1
  · rw [stepCore_originalRpm]
    exact hmp.2.2.2.1
  · rw [stepCore_setpoint]
    rcases hsp with hq | hq | hq | hq <;> rw [show (transOf c).2.1 = _ from hq] <;>
      first
      | exact h5
      | norm_num
  · rw [stepCore_setpoint]
    rcases hsp with hq | hq | hq | hq <;> rw [show (transOf c).2.1 = _ from hq] <;>
      first
      | exact h6
      | norm_num
  · rw [stepCore_brix]
    exact le_trans h7 (brixStep_ge _ _ _ h8)
  · rw [stepCore_brix]
    exact brixStep_le _ _ _
  · rw [stepCore_active, stepCore_rpm, stepCore_originalRpm]
    exact hmp.2.2.2.2
  · rw [stepCore_alarms]
    exact alarmChecks_length _ _ _ _ _ _ _
      (phaseTransition_alarms _ _ _ _ _ _ _ hal)


/-- A tick on a stopped state is the identity. -/
theorem step_notrun (s : PanState) (h : s.running = false) : step s = s := by
  unfold step
  rw [if_neg (by simp [h])]

/-- A running tick caps the history at one hundred samples. -/
theorem step_history_length (s : PanState) (h : s.running = true) :
    (step s).history.length ≤ 100 := by
  unfold step
  rw [if_pos h]
  exact pushHistory_length _ _

/-- A tick preserves the invariant. -/
theorem step_inv (s : PanState) (h : Inv s) : Inv (step s) := by
  by_cases hr : s.running = true
  · refine ⟨?_, step_history_length s hr⟩
    rw [core_step s hr]
    exact stepCore_inv _ h.1
  · have hf : s.running = false := by
      revert hr
      cases s.running <;> simp
    rw [step_notrun s hf]
    exact h

/-- The clock tick preserves the invariant. -/
theorem tickClock_inv (s : PanState) (h : Inv s) : Inv (tickClock s) := by
  unfold tickClock
  split_ifs <;> exact h

/-- Starting preserves the invariant. -/
theorem handleStart_inv (s : PanState) (h : Inv s) : Inv (handleStart s) := by
  obtain ⟨⟨h1, h2, h3, h4, h5, h6, h7, h8, h9, h10⟩, hh⟩ := h
  refine ⟨⟨h1, h2, h3, h4, ?_, ?_, h7, h8, h9, addAlarm_length _ _ _⟩, hh⟩
  · show (60:ℚ) ≤ phaseSetpoint ProcessPhase.Clarificacao
    decide
  · show phaseSetpoint ProcessPhase.Clarificacao ≤ (130:ℚ)
    decide

/-- Pausing preserves the invariant. -/
theorem handlePause_inv (s : PanState) (h : Inv s) : Inv (handlePause s) := by
  obtain ⟨⟨h1, h2, h3, h4, h5, h6, h7, h8, h9, h10⟩, hh⟩ := h
  exact ⟨⟨h1, h2, h3, h4, h5, h6, h7, h8, h9, addAlarm_length _ _ _⟩, hh⟩

/-- The initial state satisfies the invariant. -/
theorem initState_inv : Inv initState := by
  constructor
  · refine ⟨by decide, by decide, by decide, by decide, by decide, by decide,
      by decide, by decide, ?_, by decide⟩
    intro hx
    exact absurd hx (by decide)
  · decide

/-- Reset preserves the invariant. -/
theorem handleReset_inv (s : PanState) : Inv (handleReset s) := by
  have h : handleReset s = initState := rfl
  rw [h]
  exact initState_inv

/-- The auto toggle preserves the invariant. -/
theorem setAuto_inv (b : Bool) (s : PanState) (h : Inv s) : Inv (setAutoCmd b s) := by
  obtain ⟨⟨h1, h2, h3, h4, h5, h6, h7, h8, h9, h10⟩, hh⟩ := h
  exact ⟨⟨h1, h2, h3, h4, h5, h6, h7, h8, h9, h10⟩, hh⟩

/-- The setpoint slider preserves the invariant for clamped values. -/
theorem setSetpoint_inv (v : ℚ) (s : PanState) (hv1 : 60 ≤ v) (hv2 : v ≤ 130)
    (h : Inv s) : Inv (setSetpointCmd v s) := by
  obtain ⟨⟨h1, h2, h3, h4, h5, h6, h7, h8, h9, h10⟩, hh⟩ := h
  unfold setSetpointCmd
  split_ifs
  · exact ⟨⟨h1, h2, h3, h4, h5, h6, h7, h8, h9, h10⟩, hh⟩
  · exact ⟨⟨h1, h2, h3, h4, hv1, hv2, h7, h8, h9, h10⟩, hh⟩

/-- The rpm slider preserves the invariant for clamped values. -/
theorem setRpm_inv (v : ℚ) (s : PanState) (hv1 : 10 ≤ v) (hv2 : v ≤ 100)
    (h : Inv s) : Inv (setRpmCmd v s) := by
  obtain ⟨⟨h1, h2, h3, h4, h5, h6, h7, h8, h9, h10⟩, hh⟩ := h
  unfold setRpmCmd
  split_ifs with hp
  · exact ⟨⟨h1, h2, h3, h4, h5, h6, h7, h8, h9, h10⟩, hh⟩
  · refine ⟨⟨hv1, hv2, hv1, hv2, h5, h6, h7, h8, ?_, h10⟩, hh⟩
    intro hx
    exact absurd hx hp

/-- Every reachable state satisfies the invariant. -/
theorem reachable_inv (s : PanState) (h : Reachable s) : Inv s := by
  induction h with
  | init => exact initState_inv
  | tick _ ih => exact step_inv _ ih
  | clock _ ih => exact tickClock_inv _ ih
  | start _ ih => exact handleStart_inv _ ih
  | pause _ ih => exact handlePause_inv _ ih
  | reset _ _ => exact handleReset_inv _
  | auto b _ ih => exact setAuto_inv b _ ih
  | setpoint _ hv1 hv2 ih => exact setSetpoint_inv _ _ hv1 hv2 ih
  | rpm _ hv1 hv2 ih => exact setRpm_inv _ _ hv1 hv2 ih


/-- While protection is active the committed torque is the formula at the
adjusted rpm. -/
theorem motorProtection_torque_active (ph : ProcessPhase) (visc nextTorque rpm : ℚ)
    (active : Bool) (originalRpm : ℚ) (alarms : List Alarm) (h : active = true) :
    (motorProtection ph visc nextTorque rpm active originalRpm alarms).torque =
      torqueFormula ph visc
        ((motorProtection ph visc nextTorque rpm active originalRpm alarms).rpm) := by
  unfold motorProtection
  split_ifs <;>
    first
    | rfl
    | simp_all

/-- While protection is inactive (including the activation tick) the
committed torque is the first-pass value. -/
theorem motorProtection_torque_inactive (ph : ProcessPhase) (visc nextTorque rpm : ℚ)
    (active : Bool) (originalRpm : ℚ) (alarms : List Alarm) (h : active = false) :
    (motorProtection ph visc nextTorque rpm active originalRpm alarms).torque =
      nextTorque := by
  unfold motorProtection
  split_ifs <;>
    first
    | rfl
    | simp_all

/-- A committed torque of at least 95 makes the last alarm of the tick the
critical-overload error. -/
theorem alarmChecks_overload (sp T tq nT nt : ℚ) (active : Bool) (alarms : List Alarm)
    (h95 : 95 ≤ nt) :
    (alarmChecks sp T tq nT nt active alarms).getLast? =
      some ⟨AlarmMsg.overloadCritical, Severity.error⟩ := by
  unfold alarmChecks
  dsimp only
  rw [if_pos h95]
  unfold addAlarm
  rw [List.getLast?_append_cons]
  rfl


/-- C1 counterexample: on the reachable running state `trajQ2` the tick
performs the automatic Ponto→Finalizado transition, committing setpoint 60
while committing a temperature near 116 — the committed temperature exceeds
the committed setpoint plus ten, refuting the claim that the bound holds with
the setpoint committed by the same tick. -/
theorem c1_claim_false :
    Reachable trajQ2 ∧ trajQ2.running = true ∧
      (step trajQ2).setpoint + 10 < (step trajQ2).temperature := by
  refine ⟨reach_trajQ2, trajQ2_running, ?_⟩
  rw [← core_temperature, ← core_setpoint, coreT3]
  decide

/-- C2 counterexample: on the activation tick out of the reachable running
state `trajP0` the Motor Protection Controller cuts the rpm from 100 to 70,
yet the committed torque exceeds the torque formula re-evaluated at the
adjusted rpm by more than 14 points (≈90.15 versus ≈75.92) — the committed
torque is the pre-adjustment first pass, refuting the claim. -/
theorem c2_claim_false :
    Reachable trajP0 ∧ trajP0.running = true ∧
      trajP0.rpm = 100 ∧ (step trajP0).rpm = 70 ∧
      14 < (step trajP0).torque -
        torqueFormula trajP0.phase (viscOf (step trajP0).brix) ((step trajP0).rpm) := by
  refine ⟨reach_trajP0, trajP0_running, ?_, ?_, ?_⟩
  · rw [← core_rpm, coreP0]
    rfl
  · rw [show step trajP0 = trajU1 from rfl, ← core_rpm, coreU1]
    rfl
  · rw [show step trajP0 = trajU1 from rfl, ← core_torque trajU1, ← core_brix trajU1,
      ← core_rpm trajU1, coreU1, ← core_phase trajP0, coreP0]
    decide

/-- C4 counterexample: on the reachable state `trajU1` protection is active
with rpm 70 and saved rpm 100; the manual command `setRpmCmd 80` leaves the
state entirely unchanged, so the commanded value 80 is discarded rather than
latched (the recovery target stays 100), refuting the latching claim. -/
theorem c4_claim_false :
    Reachable trajU1 ∧ trajU1.protectionActive = true ∧
      setRpmCmd 80 trajU1 = trajU1 ∧ trajU1.rpm = 70 ∧ trajU1.originalRpm = 100 := by
  have hact : trajU1.protectionActive = true := by
    rw [← core_protectionActive, coreU1]
    rfl
  refine ⟨reach_trajU1, hact, ?_, ?_, ?_⟩
  · unfold setRpmCmd
    rw [if_pos hact]
  · rw [← core_rpm, coreU1]
    rfl
  · rw [← core_originalRpm, coreU1]
    rfl

/-- C5 counterexample: the reachable running state `trajT1` has committed
torque 100 (≥ 95) and so does the following tick, yet that continuation tick
appends a second critical-overload error entry — the alarm is appended on
every tick the condition holds, refuting the edge-triggered claim. -/
theorem c5_claim_false :
    Reachable trajT1 ∧ trajT1.running = true ∧
      95 ≤ trajT1.torque ∧ 95 ≤ (step trajT1).torque ∧
      countOverload (step trajT1).alarms = countOverload trajT1.alarms + 1 := by
  refine ⟨reach_trajT1, trajT1_running, ?_, ?_, ?_⟩
  · rw [← core_torque, coreT1]
    decide
  · rw [← core_torque, coreT2]
    decide
  · rw [← core_alarms (step trajT1), coreT2, ← core_alarms trajT1, coreT1]
    decide

/-- C1 (amended): for every reachable running state, the tick commits a
temperature within `[AMBIENT, setpoint + 10]`, where `setpoint` is the
setpoint read at the start of the tick; on a tick whose automatic phase
transition lowers the setpoint the bound with the newly committed setpoint
need not hold. -/
theorem c1_amended (s : PanState) (h : Reachable s) (hr : s.running = true) :
    AMBIENT ≤ (step s).temperature ∧ (step s).temperature ≤ s.setpoint + 10 := by
  obtain ⟨⟨h1, h2, h3, h4, h5, h6, h7, h8, h9, h10⟩, hh⟩ := reachable_inv s h
  have hb := tempStep_bounds (core s).protectionActive (core s).temperature
    (core s).setpoint (by linarith)
  have e : (step s).temperature = tempStep (core s).protectionActive
      (core s).temperature (core s).setpoint := by
    rw [← core_temperature, core_step s hr, stepCore_temperature]
  rw [e]
  exact hb

/-- C1 amended witness: the bound evaluated on the first tick after start. -/
theorem c1_amended_witness :
    AMBIENT ≤ (step (handleStart initState)).temperature ∧
    (step (handleStart initState)).temperature ≤ (handleStart initState).setpoint + 10 :=
  c1_amended (handleStart initState) (Reachable.start Reachable.init) rfl

/-- C2 (amended): on every running tick the committed torque is the torque
formula evaluated at the committed brix and at the committed rpm when
protection was already active at the start of the tick, and at the
pre-adjustment rpm otherwise — in particular the activation tick commits the
first-pass torque, not a recomputation at the cut rpm. -/
theorem c2_amended (s : PanState) (hr : s.running = true) :
    (step s).torque = torqueFormula s.phase (viscOf (step s).brix)
      (if s.protectionActive then (step s).rpm else s.rpm) := by
  have et : (step s).torque = (protOf (core s)).torque := by
    rw [← core_torque, core_step s hr, stepCore_torque]
  have er : (step s).rpm = (protOf (core s)).rpm := by
    rw [← core_rpm, core_step s hr, stepCore_rpm]
  have eb : (step s).brix = brixStep (core s).phase (core s).brix
      (tempStep (core s).protectionActive (core s).temperature (core s).setpoint) := by
    rw [← core_brix, core_step s hr, stepCore_brix]
  rw [et, er, eb]
  by_cases ha : s.protectionActive = true
  · rw [if_pos ha]
    exact motorProtection_torque_active _ _ _ _ _ _ _ ha
  · have hf : s.protectionActive = false := by
      revert ha
      cases s.protectionActive <;> simp
    rw [if_neg (by simp [hf])]
    exact motorProtection_torque_inactive _ _ _ _ _ _ _ hf

/-- C2 amended witness: the relation evaluated on a protection-active state. -/
theorem c2_amended_witness :
    (step witActive).torque = torqueFormula witActive.phase (viscOf (step witActive).brix)
      (if witActive.protectionActive then (step witActive).rpm else witActive.rpm) :=
  c2_amended witActive rfl

/-- C3: for every reachable state, active motor protection implies the
current rpm is strictly below the saved rpm (the activation cut
`max(10, rpm·0.7)` is strictly below the saved rpm because activation
requires torque ≥ 90, which forces rpm ≥ 50; an activation at
commandedRpm = 10 cannot occur). -/
theorem c3_protection_invariant (s : PanState) (h : Reachable s)
    (ha : s.protectionActive = true) : s.rpm < s.originalRpm := by
  obtain ⟨⟨h1, h2, h3, h4, h5, h6, h7, h8, h9, h10⟩, hh⟩ := reachable_inv s h
  exact (h9 ha).1

/-- C3 witness: the strict inequality on the reachable protection-active
state `trajU1` (rpm 70 against saved rpm 100). -/
theorem c3_witness : trajU1.rpm < trajU1.originalRpm :=
  c3_protection_invariant trajU1 reach_trajU1
    (by rw [← core_protectionActive, coreU1]; rfl)

/-- C4 (amended): while motor protection is active a manual speed command is
a complete no-op — the state is unchanged and the commanded value is
discarded, not latched; recovery ramps toward the rpm saved at activation. -/
theorem c4_amended (s : PanState) (v : ℚ) (ha : s.protectionActive = true) :
    setRpmCmd v s = s := by
  unfold setRpmCmd
  rw [if_pos ha]

/-- C4 amended witness: the no-op evaluated on a protection-active state. -/
theorem c4_amended_witness : setRpmCmd 80 witActive = witActive :=
  c4_amended witActive 80 rfl

/-- C5 (amended): the critical-overload error alarm is level-triggered — on
every running tick whose committed torque is at least 95 it is appended (as
the last entry of the tick), once per tick the condition holds. -/
theorem c5_amended (s : PanState) (hr : s.running = true)
    (h95 : 95 ≤ (step s).torque) :
    ((step s).alarms).getLast? = some ⟨AlarmMsg.overloadCritical, Severity.error⟩ := by
  have et : (step s).torque = (protOf (core s)).torque := by
    rw [← core_torque, core_step s hr, stepCore_torque]
  have ea : (step s).alarms = alarmChecks (core s).setpoint (core s).temperature
      (core s).torque
      (tempStep (core s).protectionActive (core s).temperature (core s).setpoint)
      (protOf (core s)).torque (core s).protectionActive (transOf (core s)).2.2 := by
    rw [← core_alarms, core_step s hr, stepCore_alarms]
  rw [et] at h95
  rw [ea]
  exact alarmChecks_overload _ _ _ _ _ _ _ h95

set_option maxRecDepth 400000 in
/-- C5 amended witness: the appended error on a tick committing torque 100. -/
theorem c5_amended_witness :
    ((step witOverload).alarms).getLast? =
      some ⟨AlarmMsg.overloadCritical, Severity.error⟩ :=
  c5_amended witOverload rfl (by decide)

/-- C6: on every tick with automatic mode on, the phase stays or advances to
its immediate successor in the order Clarificação → Concentração → Ponto →
Finalizado, and Finalizado admits no further automatic transition. -/
theorem c6_phase_forward (s : PanState) (hauto : s.auto = true) :
    ((step s).phase = s.phase ∨ (step s).phase = phaseSucc s.phase) ∧
    (s.phase = ProcessPhase.Finalizado → (step s).phase = ProcessPhase.Finalizado) := by
  by_cases hr : s.running = true
  · have e : (step s).phase = (transOf (core s)).1 := by
      rw [← core_phase, core_step s hr, stepCore_phase]
    constructor
    · rw [e]
      exact phaseTransition_phaseCases _ _ _ _ _ _ _
    · intro hfin
      rw [e]
      exact (phaseTransition_terminal _ _ _ _ _ _ _ hfin).trans hfin
  · have hf : s.running = false := by
      revert hr
      cases s.running <;> simp
    rw [step_notrun s hf]
    exact ⟨Or.inl rfl, fun hfin => hfin⟩

/-- C6 witness: the property evaluated on the first tick after start. -/
theorem c6_witness :
    ((step (handleStart initState)).phase = (handleStart initState).phase ∨
      (step (handleStart initState)).phase = phaseSucc (handleStart initState).phase) ∧
    ((handleStart initState).phase = ProcessPhase.Finalizado →
      (step (handleStart initState)).phase = ProcessPhase.Finalizado) :=
  c6_phase_forward (handleStart initState) rfl

/-- C7: every reachable state keeps at most five alarm entries and at most
one hundred history samples (the configured capacity, within [100, 120]);
at capacity, appending evicts exactly the oldest entry and preserves the
order of the rest. -/
theorem c7_bounded_buffers :
    (∀ s : PanState, Reachable s → s.alarms.length ≤ 5 ∧ s.history.length ≤ 100) ∧
    (∀ (msg : AlarmMsg) (sev : Severity) (l : List Alarm), l.length = 5 →
      addAlarm msg sev l = l.tail ++ [⟨msg, sev⟩]) ∧
    (∀ (p : HistoryPoint) (l : List HistoryPoint), l.length = 100 →
      pushHistory p l = l.tail ++ [p]) := by
  refine ⟨fun s h => ?_, addAlarm_evict, pushHistory_evict⟩
  obtain ⟨⟨h1, h2, h3, h4, h5, h6, h7, h8, h9, h10⟩, hh⟩ := reachable_inv s h
  exact ⟨h10, hh⟩

/-- C7 witness: the bounds at the initial state, a five-entry alarm append
evicting the oldest entry, and a full-history append evicting the oldest
sample. -/
theorem c7_witness :
    (initState.alarms.length ≤ 5 ∧ initState.history.length ≤ 100) ∧
    addAlarm AlarmMsg.systemStarted Severity.info
        [⟨AlarmMsg.systemPaused, Severity.warning⟩, ⟨AlarmMsg.highTorque, Severity.warning⟩,
          ⟨AlarmMsg.overloadCritical, Severity.error⟩, ⟨AlarmMsg.phasePonto, Severity.info⟩,
          ⟨AlarmMsg.phaseConcentracao, Severity.info⟩] =
      [⟨AlarmMsg.highTorque, Severity.warning⟩, ⟨AlarmMsg.overloadCritical, Severity.error⟩,
        ⟨AlarmMsg.phasePonto, Severity.info⟩, ⟨AlarmMsg.phaseConcentracao, Severity.info⟩,
        ⟨AlarmMsg.systemStarted, Severity.info⟩] ∧
    pushHistory ⟨25, 10, 20, 95⟩ (List.replicate 100 ⟨25, 10, 20, 95⟩) =
      (List.replicate 100 (⟨25, 10, 20, 95⟩ : HistoryPoint)).tail ++ [⟨25, 10, 20, 95⟩] :=
  ⟨c7_bounded_buffers.1 initState Reachable.init,
    c7_bounded_buffers.2.1 _ _ _ (by decide),
    c7_bounded_buffers.2.2 _ _ (by simp)⟩

/-- C8: a physics tick on a non-running state changes nothing. -/
theorem c8_paused_tick_noop (s : PanState) (h : s.running = false) : step s = s :=
  step_notrun s h

/-- C8 witness: the no-op evaluated on the (non-running) initial state. -/
theorem c8_witness : step initState = initState :=
  c8_paused_tick_noop initState rfl

/-- C9: reset from any state yields exactly the default process state. -/
theorem c9_reset_default (s : PanState) : handleReset s = initState := rfl

/-- C10: brix of a reachable state stays in [20, 85], and a running tick
never decreases it — the increment `BRIX_K·evapFactor·phaseFactor` is
nonnegative and the only clamp exercised is the upper cap at 85. -/
theorem c10_brix_monotone :
    (∀ s : PanState, Reachable s → 20 ≤ s.brix ∧ s.brix ≤ 85) ∧
    (∀ s : PanState, s.running = true → s.brix ≤ 85 →
      s.brix ≤ (step s).brix ∧ (step s).brix ≤ 85) := by
  constructor
  · intro s h
    obtain ⟨⟨h1, h2, h3, h4, h5, h6, h7, h8, h9, h10⟩, hh⟩ := reachable_inv s h
    exact ⟨h7, h8⟩
  · intro s hr hb
    have e : (step s).brix = brixStep (core s).phase (core s).brix
        (tempStep (core s).protectionActive (core s).temperature (core s).setpoint) := by
      rw [← core_brix, core_step s hr, stepCore_brix]
    rw [e]
    exact ⟨brixStep_ge _ _ _ hb, brixStep_le _ _ _⟩

/-- C10 witness: the range at the initial state and monotonicity on the
first tick after start. -/
theorem c10_witness :
    (20 ≤ initState.brix ∧ initState.brix ≤ 85) ∧
    ((handleStart initState).brix ≤ (step (handleStart initState)).brix ∧
      (step (handleStart initState)).brix ≤ 85) :=
  ⟨c10_brix_monotone.1 initState Reachable.init,
    c10_brix_monotone.2 (handleStart initState) rfl (by decide)⟩


end Panela
